import Mathlib

/-!
Shallow embedding of the gold-silver-backend ledger/stock engine.

Numbers: the JavaScript sources compute with finite IEEE doubles obtained
through `toNumber` (which replaces non-finite input by a fallback).  The
embedding models every numeric value as an exact rational (`ℚ`); the
non-finite-input coercion paths of `toNumber` are outside the model, so
`toNumber` itself becomes the identity.

State: MongoDB documents become Lean structures.  An `await model.save()`
or `findOneAndUpdate` is a pure state transformation; a thrown error is an
explicit error value, and a route that throws after some writes already
committed returns the partially-updated state together with the error
(mirroring sessionless Mongo, where each completed `await` is durable).
When a route runs inside a Mongo session, an abort restores the state from
before the route body, which the route models take as a `useSession` flag.
Injected storage faults (`FailPoint`) model an `await ....save()` throwing.
-/

namespace GoldSilver

/-- Metal kind, `metalType` in the sources. -/
inductive Metal
  | gold
  | silver
deriving DecidableEq, Repr

/-- Settlement direction (`direction` field): `receipt` = customer gave fine,
`payment` = customer took fine. -/
inductive Direction
  | payment
  | receipt
deriving DecidableEq, Repr

/-- Ledger type from `models/Ledger.js` (`regular` or `gst`). -/
inductive LedgerType
  | regular
  | gst
deriving DecidableEq, Repr

/-- Invoice type on a voucher (`normal` or `gst`). -/
inductive InvoiceType
  | normal
  | gst
deriving DecidableEq, Repr

/-- Voucher type: `sale` (default) or `purchase` (old gold buy/exchange). -/
inductive VoucherType
  | sale
  | purchase
deriving DecidableEq, Repr

/-- Payment type on a voucher: the two billing types plus the five
settlement types of `SETTLEMENT_TYPES` in the voucher route. -/
inductive PaymentType
  | cash
  | credit
  | add_cash
  | add_gold
  | add_silver
  | money_to_gold
  | money_to_silver
deriving DecidableEq, Repr

/-- Voucher lifecycle status. -/
inductive VoucherStatus
  | active
  | cancelled
deriving DecidableEq, Repr

/-- Karigar transaction type: metal `given` to or `received` from the artisan. -/
inductive KarigarType
  | given
  | received
deriving DecidableEq, Repr

/-- GST split kind used by `calculateGSTBreakdown`. -/
inductive GstType
  | IGST
  | CGST_SGST
deriving DecidableEq, Repr

/-- The `balances` subdocument of a Ledger. -/
structure Balances where
  goldFineWeight : ℚ
  silverFineWeight : ℚ
  amount : ℚ
  cashBalance : ℚ
  creditBalance : ℚ
deriving DecidableEq, Repr

/-- `calculateUnifiedAmount` (defined identically in the ledger, settlement
and voucher routes): `toNumber(balances.creditBalance) + toNumber(balances.cashBalance)`. -/
def calculateUnifiedAmount (b : Balances) : ℚ :=
  b.creditBalance + b.cashBalance

/-- `resetBalances()` from the ledger route: every field zero. -/
def resetBalances : Balances :=
  { goldFineWeight := 0, silverFineWeight := 0, amount := 0
    cashBalance := 0, creditBalance := 0 }

/-- The assignment `ledger.balances.amount = calculateUnifiedAmount(ledger.balances)`
that ends every balance-mutating block in the sources. -/
def withUnifiedAmount (b : Balances) : Balances :=
  { b with amount := calculateUnifiedAmount b }

/-- The `openingBalance` subdocument of a Ledger. -/
structure OpeningBalance where
  amount : ℚ
  goldFineWeight : ℚ
  silverFineWeight : ℚ
deriving DecidableEq, Repr

/-- A Ledger document (fields relevant to balance behaviour; display fields
such as name/phone and the `hasVouchers` bookkeeping flag are omitted). -/
structure Ledger where
  ledgerType : LedgerType
  openingBalance : OpeningBalance
  balances : Balances
deriving DecidableEq, Repr

/-- The per-tenant Stock document (daily display rates omitted). -/
structure Stock where
  gold : ℚ
  silver : ℚ
  cashInHand : ℚ
deriving DecidableEq, Repr

/-- Errors thrown by the stock helpers in `routes/stock.js`:
`INVALID_STOCK` for negative magnitudes, `INSUFFICIENT_STOCK` when the
conditional decrement finds no matching document. -/
inductive StockErr
  | invalidStock
  | insufficientStock
deriving DecidableEq, Repr

/-- `deductFromStock(userId, gold, silver)`: rejects negative magnitudes,
then performs the single conditional `findOneAndUpdate` whose filter
requires `gold ≥ g` and `silver ≥ s`; no matching document means
`INSUFFICIENT_STOCK` and no write. An error value means the stored stock
document is unchanged. -/
def deductFromStock (st : Stock) (g sv : ℚ) : Except StockErr Stock :=
  if g < 0 ∨ sv < 0 then .error .invalidStock
  else if g ≤ st.gold ∧ sv ≤ st.silver then
    .ok { st with gold := st.gold - g, silver := st.silver - sv }
  else .error .insufficientStock

/-- `addBackToStock(userId, gold, silver)`: rejects negative magnitudes,
then unconditionally increments both counters. -/
def addBackToStock (st : Stock) (g sv : ℚ) : Except StockErr Stock :=
  if g < 0 ∨ sv < 0 then .error .invalidStock
  else .ok { st with gold := st.gold + g, silver := st.silver + sv }

/-- `POST /stock/add`: rejects negative gold/silver/cash, then `$inc`s gold
and silver and decrements `cashInHand` by the cash spent. -/
def addStock (st : Stock) (g sv cashAmount : ℚ) : Except StockErr Stock :=
  if g < 0 ∨ sv < 0 ∨ cashAmount < 0 then .error .invalidStock
  else .ok { gold := st.gold + g, silver := st.silver + sv
             cashInHand := st.cashInHand - cashAmount }

/-- One StockInput history record (`models/Stock.js`). -/
structure StockInputRec where
  gold : ℚ
  silver : ℚ
  cashAmount : ℚ
deriving DecidableEq, Repr

/-- `POST /stock/undo`: subtracts the most recent stock input, guarded by
`CONSTANTS.STOCK.MIN_ALLOWED = 0` on both metals, and adds the cash back. -/
def undoStockInput (st : Stock) (lastInput : StockInputRec) : Except StockErr Stock :=
  let updatedGold := st.gold - lastInput.gold
  let updatedSilver := st.silver - lastInput.silver
  if updatedGold < 0 ∨ updatedSilver < 0 then .error .insufficientStock
  else .ok { gold := updatedGold, silver := updatedSilver
             cashInHand := st.cashInHand + lastInput.cashAmount }

/-- JavaScript `a || b` on already-coerced numbers: `b` when `a` is `0`. -/
def jsOr (a b : ℚ) : ℚ :=
  if a = 0 then b else a

/-- JavaScript `(rate || 1)` guarding the divisions by a metal rate. -/
def rateOr1 (r : ℚ) : ℚ :=
  if r = 0 then 1 else r

/-- `getCashBalanceDelta(total, cashReceived)` from the voucher route. -/
def getCashBalanceDelta (total cashReceived : ℚ) : ℚ :=
  total - cashReceived

/-- Milliseconds in an hour, the `60 * 60 * 1000` of the window checks. -/
def msPerHour : ℚ := 60 * 60 * 1000

/-- `getReversalWindowHours()`: the configured
`CONSTANTS.REVERSAL_POLICY.WINDOW_HOURS`, falling back to 48 unless positive. -/
def getReversalWindowHours (configured : ℚ) : ℚ :=
  if configured > 0 then configured else 48

/-- The shared shape of `canReverseForVoucher` / `canReverseForSettlement` /
`canReverseForKarigar`: a record with no usable `createdAt` is never
reversible; otherwise elapsed time must not exceed the window. -/
def canReverseRecord (nowMs : ℚ) (createdAtMs : Option ℚ) (configuredHours : ℚ) : Bool :=
  match createdAtMs with
  | none => false
  | some t => decide (nowMs - t ≤ getReversalWindowHours configuredHours * msPerHour)

/-- One voucher line item (fields that feed balances and stock; pure display
fields such as pieces, weights, melting and HSN code are omitted). -/
structure VoucherItem where
  metalType : Metal
  fineWeight : ℚ
  amount : ℚ
deriving DecidableEq, Repr

/-- The `stockAdjustment` pair stored on a voucher. -/
structure StockAdj where
  gold : ℚ
  silver : ℚ
deriving DecidableEq, Repr

/-- A Voucher document (fields that feed balances, stock and reversal;
invoice numbers, narration, bank and transport details are omitted).
`previousLedgerState` and `stockAdjustment` are optional to model legacy
documents that predate those fields. -/
structure Voucher where
  paymentType : PaymentType
  invoiceType : InvoiceType
  voucherType : VoucherType
  status : VoucherStatus
  items : List VoucherItem
  total : ℚ
  cashReceived : ℚ
  goldRate : ℚ
  silverRate : ℚ
  stoneAmount : ℚ
  fineAmount : ℚ
  gstTotal : ℚ
  previousLedgerState : Option Balances
  stockAdjusted : Bool
  stockAdjustment : Option StockAdj
  stockRestored : Bool
  createdAtMs : Option ℚ
deriving DecidableEq, Repr

/-- A Settlement document (fields that feed balances, stock and reversal). -/
structure Settlement where
  metalType : Metal
  fineGiven : ℚ
  amount : ℚ
  direction : Direction
  createdAtMs : Option ℚ
deriving DecidableEq, Repr

/-- A Karigar transaction document. -/
structure KarigarTx where
  type : KarigarType
  metalType : Metal
  fineWeight : ℚ
  isDeleted : Bool
  createdAtMs : Option ℚ
deriving DecidableEq, Repr

/-- Fine-weight balance of the given metal, the
`metalType === 'gold' ? balances.goldFineWeight : balances.silverFineWeight`
selections of the settlement route. -/
def fineOf (m : Metal) (b : Balances) : ℚ :=
  match m with
  | .gold => b.goldFineWeight
  | .silver => b.silverFineWeight

/-- Write the fine-weight balance of the given metal. -/
def setFineOf (m : Metal) (b : Balances) (x : ℚ) : Balances :=
  match m with
  | .gold => { b with goldFineWeight := x }
  | .silver => { b with silverFineWeight := x }

/-- `BILLING_TYPES.includes(paymentType)`, also `usesStockAdjustment`. -/
def usesStockAdjustment (pt : PaymentType) : Bool :=
  match pt with
  | .cash => true
  | .credit => true
  | _ => false

/-- `SETTLEMENT_TYPES.includes(paymentType)`. -/
def isSettlementType (pt : PaymentType) : Bool :=
  match pt with
  | .add_cash => true
  | .add_gold => true
  | .add_silver => true
  | .money_to_gold => true
  | .money_to_silver => true
  | _ => false

/-- `getFineByMetal(items)`: per-metal sums of item fine weights. -/
def getFineByMetal (items : List VoucherItem) : StockAdj :=
  items.foldl
    (fun acc item =>
      match item.metalType with
      | .gold => { acc with gold := acc.gold + item.fineWeight }
      | .silver => { acc with silver := acc.silver + item.fineWeight })
    { gold := 0, silver := 0 }

/-- `hasNonZeroStockAdjustment(adjustment)`. -/
def hasNonZeroStockAdjustment (adj : StockAdj) : Bool :=
  decide (adj.gold ≠ 0 ∨ adj.silver ≠ 0)

/-- `getVoucherStockAdjustment(voucher)`: the stored `stockAdjustment` when
present, otherwise recomputed from the items for billing payment types. -/
def getVoucherStockAdjustment (v : Voucher) : StockAdj :=
  match v.stockAdjustment with
  | some adj => adj
  | none =>
    if usesStockAdjustment v.paymentType then getFineByMetal v.items
    else { gold := 0, silver := 0 }

/-- `applyStockAdjustmentForVoucher`: splits the adjustment into its
positive and negative parts and runs up to two stock calls; sale vouchers
deduct positive parts (restore on reverse), purchase vouchers the dual.
Returns the stock after the calls that completed, plus the first error:
the first call may commit even when the second throws. -/
def applyStockAdjustmentForVoucher (st : Stock) (adj : StockAdj)
    (vt : VoucherType) (reverse : Bool) : Stock × Option StockErr :=
  let positiveGold := max 0 adj.gold
  let positiveSilver := max 0 adj.silver
  let negativeGold := max 0 (-adj.gold)
  let negativeSilver := max 0 (-adj.silver)
  let isPurchaseVoucher : Bool := vt = VoucherType.purchase
  let shouldDeductPositive := if reverse then isPurchaseVoucher else !isPurchaseVoucher
  let shouldDeductNegative := if reverse then !isPurchaseVoucher else isPurchaseVoucher
  let step1 : Except StockErr Stock :=
    if 0 < positiveGold ∨ 0 < positiveSilver then
      if shouldDeductPositive then deductFromStock st positiveGold positiveSilver
      else addBackToStock st positiveGold positiveSilver
    else .ok st
  match step1 with
  | .error e => (st, some e)
  | .ok st1 =>
    let step2 : Except StockErr Stock :=
      if 0 < negativeGold ∨ 0 < negativeSilver then
        if shouldDeductNegative then deductFromStock st1 negativeGold negativeSilver
        else addBackToStock st1 negativeGold negativeSilver
      else .ok st1
    match step2 with
    | .error e => (st1, some e)
    | .ok st2 => (st2, none)

/-- `calculateGSTBreakdown(taxableAmount, gstRate, gstType)`; the breakdown record. -/
structure GSTBreakdown where
  igst : ℚ
  cgst : ℚ
  sgst : ℚ
  totalGST : ℚ
deriving DecidableEq, Repr

/-- `calculateGSTBreakdown`: zero unless rate, taxable amount and type are
all truthy; IGST takes the full rate, CGST_SGST splits it in half. -/
def calculateGSTBreakdown (taxableAmount gstRate : ℚ) (gstType : Option GstType) :
    GSTBreakdown :=
  if gstRate = 0 ∨ taxableAmount = 0 then
    { igst := 0, cgst := 0, sgst := 0, totalGST := 0 }
  else
    match gstType with
    | some .IGST =>
      let igst := taxableAmount * gstRate / 100
      { igst := igst, cgst := 0, sgst := 0, totalGST := igst }
    | some .CGST_SGST =>
      let halfRate := gstRate / 2
      let cgst := taxableAmount * halfRate / 100
      { igst := 0, cgst := cgst, sgst := cgst, totalGST := cgst + cgst }
    | none => { igst := 0, cgst := 0, sgst := 0, totalGST := 0 }

/-- Sum of `item.amount` over the items (the `totals.amount` reduction). -/
def itemsAmountTotal (items : List VoucherItem) : ℚ :=
  items.foldl (fun acc it => acc + it.amount) 0

/-- The legacy (no `previousLedgerState`) arithmetic reversal of
`reverseVoucherEffects`, acting on the balances only. -/
def reverseLegacyBalances (v : Voucher) (b : Balances) : Balances :=
  match v.paymentType with
  | .add_cash =>
    let amountToReverse := v.cashReceived
    let b1 :=
      if b.cashBalance ≠ 0 ∨ b.creditBalance = 0 then
        { b with cashBalance := b.cashBalance - amountToReverse }
      else
        { b with creditBalance := b.creditBalance - amountToReverse }
    withUnifiedAmount b1
  | .add_gold =>
    withUnifiedAmount { b with goldFineWeight := b.goldFineWeight + v.cashReceived }
  | .add_silver =>
    withUnifiedAmount { b with silverFineWeight := b.silverFineWeight + v.cashReceived }
  | .money_to_gold =>
    withUnifiedAmount
      { b with goldFineWeight := b.goldFineWeight + v.cashReceived / rateOr1 v.goldRate }
  | .money_to_silver =>
    withUnifiedAmount
      { b with silverFineWeight := b.silverFineWeight + v.cashReceived / rateOr1 v.silverRate }
  | .credit =>
    let b1 := v.items.foldl
      (fun acc item =>
        match item.metalType with
        | .gold => { acc with goldFineWeight := acc.goldFineWeight - item.fineWeight }
        | .silver => { acc with silverFineWeight := acc.silverFineWeight - item.fineWeight })
      b
    withUnifiedAmount { b1 with cashBalance := b1.cashBalance - v.total }
  | .cash =>
    withUnifiedAmount
      { b with cashBalance := b.cashBalance - getCashBalanceDelta v.total v.cashReceived }

/-- Output of `reverseVoucherEffects`. An error means the stock step threw;
the ledger is then untouched (the throw happens before any balance write)
but the stock may hold a partial adjustment. -/
structure RevOut where
  voucher : Voucher
  ledger : Ledger
  stock : Stock
  err : Option StockErr
deriving DecidableEq, Repr

/-- `reverseVoucherEffects(voucher, ledger, options)`: restore stock unless
already restored (setting `stockRestored` when `markRestored`), then
overwrite the balances from the `previousLedgerState` snapshot when one
exists; otherwise fall back to the arithmetic inverse, skipping balances
entirely for GST invoices and GST ledgers. -/
def reverseVoucherEffects (v : Voucher) (ledger : Ledger) (st : Stock)
    (restoreStock markRestored : Bool) : RevOut :=
  let adj := getVoucherStockAdjustment v
  let shouldRestoreStock := restoreStock && !v.stockRestored && hasNonZeroStockAdjustment adj
  let stockStep : Stock × Option StockErr × Voucher :=
    if shouldRestoreStock then
      match applyStockAdjustmentForVoucher st adj v.voucherType true with
      | (st1, some e) => (st1, some e, v)
      | (st1, none) =>
        (st1, none, if markRestored then { v with stockRestored := true } else v)
    else (st, none, v)
  match stockStep with
  | (st1, some e, v1) => { voucher := v1, ledger := ledger, stock := st1, err := some e }
  | (st1, none, v1) =>
    match v.previousLedgerState with
    | some snap =>
      { voucher := v1, ledger := { ledger with balances := snap }, stock := st1, err := none }
    | none =>
      if v.invoiceType = .gst ∨ ledger.ledgerType = .gst then
        { voucher := v1, ledger := ledger, stock := st1, err := none }
      else
        { voucher := v1
          ledger := { ledger with balances := reverseLegacyBalances v ledger.balances }
          stock := st1, err := none }

/-- Request payload for voucher create/edit (validated fields only). -/
structure VoucherInput where
  paymentType : PaymentType
  invoiceType : InvoiceType
  voucherType : VoucherType
  items : List VoucherItem
  stoneAmount : ℚ
  fineAmount : ℚ
  gstType : Option GstType
  gstRate : ℚ
  cashReceived : ℚ
  goldRate : ℚ
  silverRate : ℚ
  createdAtMs : Option ℚ
deriving DecidableEq, Repr

/-- Injected storage fault: which `await ....save()` of the route throws.
`atRecordSave` is the voucher/settlement save, `atLedgerSave` the ledger save. -/
inductive FailPoint
  | noFail
  | atLedgerSave
  | atRecordSave
deriving DecidableEq, Repr

/-- Error taxonomy of the voucher routes as visible to these claims. -/
inductive VoucherErr
  | invalidRequest
  | stockError (e : StockErr)
  | storageError
deriving DecidableEq, Repr

/-- The voucher field `oldBalance.amount`: which balance the route reads as
the running amount, per payment type (JS `||` picks credit when cash is 0). -/
def oldBalanceAmount (pt : PaymentType) (b : Balances) : ℚ :=
  match pt with
  | .cash => b.cashBalance
  | .credit => b.cashBalance
  | .add_cash => jsOr b.cashBalance b.creditBalance
  | .money_to_gold => jsOr b.cashBalance b.creditBalance
  | .money_to_silver => jsOr b.cashBalance b.creditBalance
  | _ => b.cashBalance

/-- The `currentBalance.amount` computation of the voucher routes. -/
def currentBalanceAmount (inp : VoucherInput) (oldBalAmount total : ℚ) : ℚ :=
  match inp.paymentType with
  | .credit =>
    if inp.voucherType = .purchase then oldBalAmount - total else oldBalAmount + total
  | .cash =>
    if inp.voucherType = .purchase then oldBalAmount + (-(total - inp.cashReceived))
    else oldBalAmount + getCashBalanceDelta total inp.cashReceived
  | .add_cash => oldBalAmount - total
  | .add_gold => oldBalAmount
  | .add_silver => oldBalAmount
  | .money_to_gold => oldBalAmount - total
  | .money_to_silver => oldBalAmount - total

/-- The balance-mutation block of voucher create/edit (already guarded by
the non-GST check): per payment type, item fine weights and the computed
current amount are written, then the unified amount is recomputed. -/
def applyVoucherBalances (inp : VoucherInput) (currentAmount : ℚ) (b : Balances) : Balances :=
  let b1 :=
    match inp.paymentType with
    | .credit =>
      let bf := inp.items.foldl
        (fun acc item =>
          match item.metalType, inp.voucherType with
          | .gold, .purchase =>
            { acc with goldFineWeight := acc.goldFineWeight - item.fineWeight }
          | .gold, .sale =>
            { acc with goldFineWeight := acc.goldFineWeight + item.fineWeight }
          | .silver, .purchase =>
            { acc with silverFineWeight := acc.silverFineWeight - item.fineWeight }
          | .silver, .sale =>
            { acc with silverFineWeight := acc.silverFineWeight + item.fineWeight })
        b
      { bf with cashBalance := currentAmount }
    | .cash => { b with cashBalance := currentAmount }
    | .add_cash =>
      if b.cashBalance ≠ 0 ∨ b.creditBalance = 0 then
        { b with cashBalance := currentAmount }
      else
        { b with creditBalance := currentAmount }
    | .add_gold => { b with goldFineWeight := b.goldFineWeight - inp.cashReceived }
    | .add_silver => { b with silverFineWeight := b.silverFineWeight - inp.cashReceived }
    | .money_to_gold =>
      { b with goldFineWeight := b.goldFineWeight - inp.cashReceived / rateOr1 inp.goldRate }
    | .money_to_silver =>
      { b with silverFineWeight := b.silverFineWeight - inp.cashReceived / rateOr1 inp.silverRate }
  withUnifiedAmount b1

/-- The Voucher document persisted by a successful create/edit. -/
def mkVoucherRecord (inp : VoucherInput) (cleanedItems : List VoucherItem)
    (total : ℚ) (stockAdjustment : StockAdj) (prevBalances : Balances) : Voucher :=
  { paymentType := inp.paymentType, invoiceType := inp.invoiceType
    voucherType := inp.voucherType, status := .active, items := cleanedItems
    total := total, cashReceived := inp.cashReceived
    goldRate := inp.goldRate, silverRate := inp.silverRate
    stoneAmount := inp.stoneAmount, fineAmount := inp.fineAmount
    gstTotal :=
      (calculateGSTBreakdown (itemsAmountTotal cleanedItems + inp.stoneAmount)
        inp.gstRate inp.gstType).totalGST
    previousLedgerState := some prevBalances
    stockAdjusted := hasNonZeroStockAdjustment stockAdjustment
    stockAdjustment := some stockAdjustment
    stockRestored := false
    createdAtMs := inp.createdAtMs }

/-- Result of the core apply part of voucher create/edit, describing the
state as persisted without a session (each completed write is durable). -/
inductive VCoreOut
  | ok (ledger : Ledger) (stock : Stock) (voucher : Voucher)
  | fail (ledger : Ledger) (stock : Stock) (err : VoucherErr)
deriving DecidableEq, Repr

/-- The ledger as persisted after the route, success or not. -/
def VCoreOut.outLedger : VCoreOut → Ledger
  | .ok l _ _ => l
  | .fail l _ _ => l

/-- The stock as persisted after the route, success or not. -/
def VCoreOut.outStock : VCoreOut → Stock
  | .ok _ st _ => st
  | .fail _ st _ => st

/-- Whether the route succeeded. -/
def VCoreOut.isOk : VCoreOut → Bool
  | .ok _ _ _ => true
  | .fail _ _ _ => false

/-- The `cleanedItems` of the voucher routes: item rows are kept only for
the billing payment types, settlement types store an empty list. -/
def voucherCleanedItems (inp : VoucherInput) : List VoucherItem :=
  if usesStockAdjustment inp.paymentType = true then inp.items else []

/-- The `total` of the voucher routes: items plus stone, fine adjustment
and GST for billing types; `cashReceived` for settlement types. -/
def voucherTotal (inp : VoucherInput) : ℚ :=
  if isSettlementType inp.paymentType = true then inp.cashReceived
  else
    itemsAmountTotal (voucherCleanedItems inp) + inp.stoneAmount + inp.fineAmount +
      (calculateGSTBreakdown (itemsAmountTotal (voucherCleanedItems inp) + inp.stoneAmount)
        inp.gstRate inp.gstType).totalGST

/-- The `currentBalance.amount` the route computes from the ledger state. -/
def voucherCurrentAmount (inp : VoucherInput) (b : Balances) : ℚ :=
  currentBalanceAmount inp (oldBalanceAmount inp.paymentType b) (voucherTotal inp)

/-- The bulk `stockAdjustment` of the voucher routes: zero in item mode
and for settlement types, otherwise the per-metal fine sums of the items. -/
def voucherStockAdjustment (isItemMode : Bool) (inp : VoucherInput) : StockAdj :=
  if isItemMode = false ∧ usesStockAdjustment inp.paymentType = true then
    getFineByMetal (voucherCleanedItems inp)
  else { gold := 0, silver := 0 }

/-- The stock-mutation step of the voucher routes: skipped entirely when
the adjustment is all-zero. -/
def voucherStockStep (isItemMode : Bool) (inp : VoucherInput) (st : Stock) :
    Stock × Option StockErr :=
  if hasNonZeroStockAdjustment (voucherStockAdjustment isItemMode inp) = true then
    applyStockAdjustmentForVoucher st (voucherStockAdjustment isItemMode inp)
      inp.voucherType false
  else (st, none)

/-- The ledger after the balance-mutation block, which is skipped for GST
invoices and GST-typed ledgers. -/
def voucherNewLedger (inp : VoucherInput) (ledger : Ledger) : Ledger :=
  if inp.invoiceType ≠ .gst ∧ ledger.ledgerType ≠ .gst then
    { ledger with balances :=
        applyVoucherBalances inp (voucherCurrentAmount inp ledger.balances) ledger.balances }
  else ledger

/-- The shared body of `POST /vouchers` and the apply half of
`PUT /vouchers/:id`: the bulk stock adjustment (whose guard may throw),
the `previousLedgerState` capture, the balance write guarded by the GST
checks, then ledger and voucher saves (each a possible `FailPoint`).
Early duplicate-number/ledger-lookup checks precede any write in the
source and are outside this model. -/
def voucherApplyCore (isItemMode : Bool) (failPoint : FailPoint) (inp : VoucherInput)
    (ledger : Ledger) (st : Stock) : VCoreOut :=
  match voucherStockStep isItemMode inp st with
  | (st1, some e) => .fail ledger st1 (.stockError e)
  | (st1, none) =>
    let voucher := mkVoucherRecord inp (voucherCleanedItems inp) (voucherTotal inp)
      (voucherStockAdjustment isItemMode inp) ledger.balances
    match failPoint with
    | .atLedgerSave => .fail ledger st1 .storageError
    | .atRecordSave => .fail (voucherNewLedger inp ledger) st1 .storageError
    | .noFail => .ok (voucherNewLedger inp ledger) st1 voucher

/-- `POST /vouchers`: items-required validation, then the core apply. The
catch block only aborts the Mongo session when one is active; without a
session the partially persisted state stands (no compensating stock call). -/
def voucherCreate (useSession : Bool) (failPoint : FailPoint) (isItemMode : Bool)
    (inp : VoucherInput) (ledger : Ledger) (st : Stock) : VCoreOut :=
  if isSettlementType inp.paymentType = false ∧ inp.items = [] then
    .fail ledger st .invalidRequest
  else
    match voucherApplyCore isItemMode failPoint inp ledger st with
    | .ok l s v => .ok l s v
    | .fail l s e => if useSession then .fail ledger st e else .fail l s e

/-- Output of `PUT /vouchers/:id`. -/
structure VEditOut where
  voucher : Voucher
  ledger : Ledger
  stock : Stock
  err : Option VoucherErr
deriving DecidableEq, Repr

/-- `PUT /vouchers/:id`: refuse cancelled or out-of-window vouchers, undo
the old effects (`reverseVoucherEffects`, snapshot restore) and save, then
run the same apply core on the reversed ledger. Without a session, a
failure after the reversal leaves the ledger reversed and the stock
restored while the voucher stays active. -/
def voucherEdit (useSession : Bool) (failPoint : FailPoint) (isItemMode : Bool)
    (nowMs configuredHours : ℚ) (inp : VoucherInput) (v : Voucher)
    (ledger : Ledger) (st : Stock) : VEditOut :=
  if v.status = .cancelled then
    { voucher := v, ledger := ledger, stock := st, err := some .invalidRequest }
  else if canReverseRecord nowMs v.createdAtMs configuredHours = false then
    { voucher := v, ledger := ledger, stock := st, err := some .invalidRequest }
  else
    let rev := reverseVoucherEffects v ledger st true false
    match rev.err with
    | some e =>
      if useSession then
        { voucher := v, ledger := ledger, stock := st, err := some (.stockError e) }
      else
        { voucher := v, ledger := ledger, stock := rev.stock, err := some (.stockError e) }
    | none =>
      if isSettlementType inp.paymentType = false ∧ inp.items = [] then
        if useSession then
          { voucher := v, ledger := ledger, stock := st, err := some .invalidRequest }
        else
          { voucher := v, ledger := rev.ledger, stock := rev.stock
            err := some .invalidRequest }
      else
        match voucherApplyCore isItemMode failPoint inp rev.ledger rev.stock with
        | .ok l s nv => { voucher := nv, ledger := l, stock := s, err := none }
        | .fail l s e =>
          if useSession then
            { voucher := v, ledger := ledger, stock := st, err := some e }
          else
            { voucher := v, ledger := l, stock := s, err := some e }

/-- Output of `PATCH /vouchers/:id` (cancel). -/
structure VCancelOut where
  voucher : Voucher
  ledgerOpt : Option Ledger
  stock : Stock
  success : Bool
deriving DecidableEq, Repr

/-- `PATCH /vouchers/:id` with `status: cancelled`: refuse an already
cancelled voucher; reverse effects only when the ledger still exists and
the window allows it; then mark the voucher cancelled regardless. -/
def voucherCancel (useSession : Bool) (nowMs configuredHours : ℚ)
    (v : Voucher) (ledgerOpt : Option Ledger) (st : Stock) : VCancelOut :=
  if v.status = .cancelled then
    { voucher := v, ledgerOpt := ledgerOpt, stock := st, success := false }
  else
    let canReverse := canReverseRecord nowMs v.createdAtMs configuredHours
    match ledgerOpt, canReverse with
    | some ledger, true =>
      let rev := reverseVoucherEffects v ledger st true true
      match rev.err with
      | some _ =>
        if useSession then
          { voucher := v, ledgerOpt := some ledger, stock := st, success := false }
        else
          { voucher := v, ledgerOpt := some ledger, stock := rev.stock, success := false }
      | none =>
        { voucher := { rev.voucher with status := .cancelled }
          ledgerOpt := some rev.ledger, stock := rev.stock, success := true }
    | _, _ =>
      { voucher := { v with status := .cancelled }, ledgerOpt := ledgerOpt
        stock := st, success := true }

/-- Output of `DELETE /vouchers/:id`. -/
structure VDeleteOut where
  voucherOpt : Option Voucher
  ledgerOpt : Option Ledger
  stock : Stock
  success : Bool
deriving DecidableEq, Repr

/-- `DELETE /vouchers/:id`: full reversal for an active in-window voucher,
a stock-only reversal for a cancelled in-window voucher whose stock was
not yet restored, otherwise no reversal; then the voucher is removed. -/
def voucherDelete (useSession : Bool) (nowMs configuredHours : ℚ)
    (v : Voucher) (ledgerOpt : Option Ledger) (st : Stock) : VDeleteOut :=
  let canReverse := canReverseRecord nowMs v.createdAtMs configuredHours
  match ledgerOpt with
  | some ledger =>
    if canReverse = true ∧ v.status ≠ .cancelled then
      let rev := reverseVoucherEffects v ledger st true false
      match rev.err with
      | some _ =>
        if useSession then
          { voucherOpt := some v, ledgerOpt := some ledger, stock := st, success := false }
        else
          { voucherOpt := some v, ledgerOpt := some ledger, stock := rev.stock
            success := false }
      | none =>
        { voucherOpt := none, ledgerOpt := some rev.ledger, stock := rev.stock
          success := true }
    else if canReverse = true ∧ v.stockRestored = false then
      let adj := getVoucherStockAdjustment v
      if hasNonZeroStockAdjustment adj then
        match applyStockAdjustmentForVoucher st adj v.voucherType true with
        | (st1, some _) =>
          if useSession then
            { voucherOpt := some v, ledgerOpt := some ledger, stock := st, success := false }
          else
            { voucherOpt := some v, ledgerOpt := some ledger, stock := st1, success := false }
        | (st1, none) =>
          { voucherOpt := none, ledgerOpt := some ledger, stock := st1, success := true }
      else
        { voucherOpt := none, ledgerOpt := some ledger, stock := st, success := true }
    else
      { voucherOpt := none, ledgerOpt := some ledger, stock := st, success := true }
  | none =>
    { voucherOpt := none, ledgerOpt := none, stock := st, success := true }

/-- Request payload for `POST /settlements`. -/
structure SettlementInput where
  metalType : Metal
  direction : Direction
  isMoneyConversion : Bool
  fineGiven : ℚ
  metalRate : ℚ
  requestAmount : ℚ
  createdAtMs : Option ℚ
deriving DecidableEq, Repr

/-- Error taxonomy of `POST /settlements` as visible to these claims. -/
inductive SettleErr
  | insufficientCashForConversion
  | insufficientBalance
  | exceedsPendingCredit
  | negativeResult
  | stockError (e : StockErr)
  | storageError
deriving DecidableEq, Repr

/-- Which way the settlement route adjusted stock (`stockAction`). -/
inductive StockAction
  | deduct
  | add
deriving DecidableEq, Repr

/-- Output of `POST /settlements`. -/
structure SCreateOut where
  ledger : Ledger
  stock : Stock
  settlementOpt : Option Settlement
  err : Option SettleErr
deriving DecidableEq, Repr

/-- The inverse stock call the settlement route issues to compensate an
already-applied adjustment (in its negative-result branch and its catch
block). If that inverse call itself throws, it is logged and the partial
stock stands. -/
def compensateSettlementStock (act : StockAction) (st : Stock) (g sv : ℚ) : Stock :=
  match act with
  | .deduct =>
    match addBackToStock st g sv with
    | .ok st1 => st1
    | .error _ => st
  | .add =>
    match deductFromStock st g sv with
    | .ok st1 => st1
    | .error _ => st

/-- `POST /settlements`: pre-checks (conversion credit cover; payment
direction fine and credit cover), the stock adjustment (deduct on payment,
add on receipt and on money conversion), the negative-result rejection
with stock compensation, the settlement save (a `FailPoint`, compensated
in the catch block), then the ledger balance write and save (also a
`FailPoint`, likewise compensated). This route never opens a session. -/
def settlementCreate (failPoint : FailPoint) (inp : SettlementInput)
    (ledger : Ledger) (st : Stock) : SCreateOut :=
  let balanceBeforeFine := fineOf inp.metalType ledger.balances
  let amount :=
    if inp.isMoneyConversion then inp.requestAmount else inp.fineGiven * inp.metalRate
  if inp.isMoneyConversion = true ∧ ledger.balances.creditBalance < amount then
    { ledger := ledger, stock := st, settlementOpt := none
      err := some .insufficientCashForConversion }
  else if inp.isMoneyConversion = false ∧ inp.direction = .payment ∧
      balanceBeforeFine < inp.fineGiven then
    { ledger := ledger, stock := st, settlementOpt := none
      err := some .insufficientBalance }
  else if inp.isMoneyConversion = false ∧ inp.direction = .payment ∧
      ledger.balances.creditBalance < amount then
    { ledger := ledger, stock := st, settlementOpt := none
      err := some .exceedsPendingCredit }
  else
    let goldAmt := if inp.metalType = .gold then inp.fineGiven else 0
    let silverAmt := if inp.metalType = .silver then inp.fineGiven else 0
    let act : StockAction :=
      if inp.direction = .payment ∧ inp.isMoneyConversion = false then .deduct else .add
    let stockRes :=
      match act with
      | .deduct => deductFromStock st goldAmt silverAmt
      | .add => addBackToStock st goldAmt silverAmt
    match stockRes with
    | .error e =>
      { ledger := ledger, stock := st, settlementOpt := none, err := some (.stockError e) }
    | .ok st1 =>
      let fineMultiplier : ℚ := if inp.direction = .receipt then 1 else -1
      let finalFineMultiplier := if inp.isMoneyConversion then 1 else fineMultiplier
      let finalAmountMultiplier := if inp.isMoneyConversion then -1 else fineMultiplier
      let updatedFine := balanceBeforeFine + finalFineMultiplier * inp.fineGiven
      let updatedCredit :=
        ledger.balances.creditBalance + finalAmountMultiplier * amount
      if updatedFine < 0 ∨ updatedCredit < 0 then
        { ledger := ledger, stock := compensateSettlementStock act st1 goldAmt silverAmt
          settlementOpt := none, err := some .negativeResult }
      else
        match failPoint with
        | .atRecordSave =>
          { ledger := ledger, stock := compensateSettlementStock act st1 goldAmt silverAmt
            settlementOpt := none, err := some .storageError }
        | _ =>
          let srec : Settlement :=
            { metalType := inp.metalType, fineGiven := inp.fineGiven, amount := amount
              direction := inp.direction, createdAtMs := inp.createdAtMs }
          match failPoint with
          | .atLedgerSave =>
            { ledger := ledger, stock := compensateSettlementStock act st1 goldAmt silverAmt
              settlementOpt := some srec, err := some .storageError }
          | _ =>
            let b0 := setFineOf inp.metalType ledger.balances updatedFine
            let b1 := { b0 with creditBalance := updatedCredit }
            { ledger := { ledger with balances := withUnifiedAmount b1 }
              stock := st1, settlementOpt := some srec, err := none }

/-- Output of `DELETE /settlements/:id`. -/
structure SDeleteOut where
  settlementOpt : Option Settlement
  ledgerOpt : Option Ledger
  stock : Stock
  success : Bool
deriving DecidableEq, Repr

/-- `DELETE /settlements/:id`: rejected outright when the reversal window
has expired; otherwise the ledger balances are arithmetically inverted and
saved, the stock change is inverted, and the settlement is removed. A
stock error after the ledger save leaves the reverted ledger persisted and
the settlement in place. -/
def settlementDelete (nowMs configuredHours : ℚ) (s : Settlement)
    (ledgerOpt : Option Ledger) (st : Stock) : SDeleteOut :=
  if canReverseRecord nowMs s.createdAtMs configuredHours = false then
    { settlementOpt := some s, ledgerOpt := ledgerOpt, stock := st, success := false }
  else
    let ledger1 : Option Ledger :=
      match ledgerOpt with
      | none => none
      | some l =>
        let fineMultiplier : ℚ := if s.direction = .receipt then -1 else 1
        let b0 := setFineOf s.metalType l.balances
          (fineOf s.metalType l.balances + fineMultiplier * s.fineGiven)
        let b1 := { b0 with creditBalance := b0.creditBalance + fineMultiplier * s.amount }
        some { l with balances := withUnifiedAmount b1 }
    let goldAmt := if s.metalType = .gold then s.fineGiven else 0
    let silverAmt := if s.metalType = .silver then s.fineGiven else 0
    let stockRes :=
      if s.direction = .payment then addBackToStock st goldAmt silverAmt
      else deductFromStock st goldAmt silverAmt
    match stockRes with
    | .error _ =>
      { settlementOpt := some s, ledgerOpt := ledger1, stock := st, success := false }
    | .ok st1 =>
      { settlementOpt := none, ledgerOpt := ledger1, stock := st1, success := true }

/-- Request payload for `POST /karigar`. -/
structure KarigarInput where
  type : KarigarType
  metalType : Metal
  fineWeight : ℚ
  createdAtMs : Option ℚ
deriving DecidableEq, Repr

/-- Output of `POST /karigar`. -/
structure KCreateOut where
  txOpt : Option KarigarTx
  stock : Stock
  success : Bool
deriving DecidableEq, Repr

/-- `POST /karigar`: requires a positive fine weight; `given` deducts from
stock, `received` adds back; the transaction document is then saved. -/
def karigarCreate (inp : KarigarInput) (st : Stock) : KCreateOut :=
  if inp.fineWeight ≤ 0 then
    { txOpt := none, stock := st, success := false }
  else
    let goldAmt := if inp.metalType = .gold then inp.fineWeight else 0
    let silverAmt := if inp.metalType = .silver then inp.fineWeight else 0
    let stockRes :=
      match inp.type with
      | .given => deductFromStock st goldAmt silverAmt
      | .received => addBackToStock st goldAmt silverAmt
    match stockRes with
    | .error _ => { txOpt := none, stock := st, success := false }
    | .ok st1 =>
      { txOpt := some
          { type := inp.type, metalType := inp.metalType, fineWeight := inp.fineWeight
            isDeleted := false, createdAtMs := inp.createdAtMs }
        stock := st1, success := true }

/-- Output of `DELETE /karigar/:id`. -/
structure KDeleteOut where
  tx : KarigarTx
  stock : Stock
  success : Bool
deriving DecidableEq, Repr

/-- `DELETE /karigar/:id`: rejected when already soft-deleted or when the
reversal window has expired; otherwise the stock adjustment is inverted
and the transaction is marked `isDeleted`. -/
def karigarDelete (nowMs configuredHours : ℚ) (k : KarigarTx) (st : Stock) : KDeleteOut :=
  if k.isDeleted = true then
    { tx := k, stock := st, success := false }
  else if canReverseRecord nowMs k.createdAtMs configuredHours = false then
    { tx := k, stock := st, success := false }
  else
    let goldAmt := if k.metalType = .gold then k.fineWeight else 0
    let silverAmt := if k.metalType = .silver then k.fineWeight else 0
    let stockRes :=
      match k.type with
      | .given => addBackToStock st goldAmt silverAmt
      | .received => deductFromStock st goldAmt silverAmt
    match stockRes with
    | .error _ => { tx := k, stock := st, success := false }
    | .ok st1 => { tx := { k with isDeleted := true }, stock := st1, success := true }

/-- `POST /ledgers`: the new document's balances are initialised from the
opening balance (cash takes the full amount, credit starts at zero) with
no check of the ledger type. -/
def createLedger (lt : LedgerType) (ob : OpeningBalance) : Ledger :=
  { ledgerType := lt, openingBalance := ob
    balances :=
      { goldFineWeight := ob.goldFineWeight, silverFineWeight := ob.silverFineWeight
        amount := ob.amount, cashBalance := ob.amount, creditBalance := 0 } }

/-- `PATCH /ledgers/:id` with a new opening balance: balances follow the
new opening values only when the ledger owns no vouchers or settlements;
a GST ledger is then reset to zero instead. -/
def updateLedgerOpening (ob : OpeningBalance) (hasTransactions : Bool) (l : Ledger) : Ledger :=
  let l1 := { l with openingBalance := ob }
  if hasTransactions then l1
  else if l1.ledgerType = .gst then { l1 with balances := resetBalances }
  else
    { l1 with balances :=
        { goldFineWeight := ob.goldFineWeight, silverFineWeight := ob.silverFineWeight
          cashBalance := ob.amount, creditBalance := 0, amount := ob.amount } }

/-- The total-repair self-heal of `POST /ledgers/:id/recalculate-balance`:
an active voucher with a zero stored total gets it recomputed from items,
stone, fine adjustment and GST. -/
def fixVoucherTotal (v : Voucher) : Voucher :=
  if v.total = 0 then
    { v with total := itemsAmountTotal v.items + v.stoneAmount + v.fineAmount + v.gstTotal }
  else v

/-- The voucher replay step of the recalculation route (GST invoices are
skipped; note the replay has no purchase-voucher branches). -/
def replayVoucher (b : Balances) (v : Voucher) : Balances :=
  if v.invoiceType = .gst then b
  else
    match v.paymentType with
    | .credit =>
      let b1 := v.items.foldl
        (fun acc item =>
          match item.metalType with
          | .gold => { acc with goldFineWeight := acc.goldFineWeight + item.fineWeight }
          | .silver => { acc with silverFineWeight := acc.silverFineWeight + item.fineWeight })
        b
      { b1 with cashBalance := b1.cashBalance + v.total }
    | .cash => { b with cashBalance := b.cashBalance + (v.total - v.cashReceived) }
    | .add_cash => { b with cashBalance := b.cashBalance - v.cashReceived }
    | .add_gold => { b with goldFineWeight := b.goldFineWeight - v.cashReceived }
    | .add_silver => { b with silverFineWeight := b.silverFineWeight - v.cashReceived }
    | .money_to_gold =>
      { b with goldFineWeight := b.goldFineWeight - v.cashReceived / rateOr1 v.goldRate }
    | .money_to_silver =>
      { b with silverFineWeight := b.silverFineWeight - v.cashReceived / rateOr1 v.silverRate }

/-- The settlement replay step of the recalculation route. -/
def replaySettlement (b : Balances) (s : Settlement) : Balances :=
  let multiplier : ℚ := if s.direction = .receipt then 1 else -1
  let b1 := setFineOf s.metalType b (fineOf s.metalType b + multiplier * s.fineGiven)
  { b1 with creditBalance := b1.creditBalance + multiplier * s.amount }

/-- `POST /ledgers/:id/recalculate-balance`: a GST ledger is pinned to
zero; otherwise balances restart from the opening balance, all active
vouchers and all settlements are replayed, and the unified amount is
recomputed at the end. -/
def recalculateBalance (l : Ledger) (vouchers : List Voucher)
    (settlements : List Settlement) : Ledger :=
  if l.ledgerType = .gst then { l with balances := resetBalances }
  else
    let activeVouchers := vouchers.filter (fun v => v.status = .active)
    let b0 :=
      { resetBalances with
          goldFineWeight := l.openingBalance.goldFineWeight
          silverFineWeight := l.openingBalance.silverFineWeight
          cashBalance := l.openingBalance.amount }
    let b1 := activeVouchers.foldl replayVoucher b0
    let b2 := settlements.foldl replaySettlement b1
    { l with balances := withUnifiedAmount b2 }

/-- The whole modelled system for one tenant and one ledger: the ledger,
the shared stock document, and the record collections. The stock-input
history is kept most-recent-first, matching the undo route's
sort-by-date-descending lookup. -/
structure SysState where
  ledger : Ledger
  stock : Stock
  vouchers : List Voucher
  settlements : List Settlement
  karigars : List KarigarTx
  stockInputs : List StockInputRec
deriving DecidableEq, Repr

/-- The tenant's initial state: a freshly created ledger and the
zero-valued stock document `ensureUserStock` lazily creates. -/
def initState (lt : LedgerType) (ob : OpeningBalance) : SysState :=
  { ledger := createLedger lt ob, stock := { gold := 0, silver := 0, cashInHand := 0 }
    vouchers := [], settlements := [], karigars := [], stockInputs := [] }

/-- One inbound request against the modelled system. Index arguments name
an existing record; a bad index is a not-found response with no effect. -/
inductive Op
  | voucherCreateOp (useSession : Bool) (failPoint : FailPoint) (isItemMode : Bool)
      (inp : VoucherInput)
  | voucherEditOp (useSession : Bool) (failPoint : FailPoint) (isItemMode : Bool)
      (nowMs configuredHours : ℚ) (idx : ℕ) (inp : VoucherInput)
  | voucherCancelOp (useSession : Bool) (nowMs configuredHours : ℚ) (idx : ℕ)
  | voucherDeleteOp (useSession : Bool) (nowMs configuredHours : ℚ) (idx : ℕ)
  | settlementCreateOp (failPoint : FailPoint) (inp : SettlementInput)
  | settlementDeleteOp (nowMs configuredHours : ℚ) (idx : ℕ)
  | karigarCreateOp (inp : KarigarInput)
  | karigarDeleteOp (nowMs configuredHours : ℚ) (idx : ℕ)
  | stockAddOp (g sv cashAmount : ℚ)
  | stockUndoOp
  | recalcOp
  | updateOpeningOp (ob : OpeningBalance)
  | purgeOp

/-- The state transition for one request: each route model applied to the
relevant records, with its outputs written back. -/
def applyOp (op : Op) (s : SysState) : SysState :=
  match op with
  | .voucherCreateOp useSession failPoint isItemMode inp =>
    match voucherCreate useSession failPoint isItemMode inp s.ledger s.stock with
    | .ok l st v => { s with ledger := l, stock := st, vouchers := s.vouchers ++ [v] }
    | .fail l st _ => { s with ledger := l, stock := st }
  | .voucherEditOp useSession failPoint isItemMode nowMs configuredHours idx inp =>
    match s.vouchers[idx]? with
    | none => s
    | some v =>
      let out := voucherEdit useSession failPoint isItemMode nowMs configuredHours inp
        v s.ledger s.stock
      { s with ledger := out.ledger, stock := out.stock
               vouchers := s.vouchers.set idx out.voucher }
  | .voucherCancelOp useSession nowMs configuredHours idx =>
    match s.vouchers[idx]? with
    | none => s
    | some v =>
      let out := voucherCancel useSession nowMs configuredHours v (some s.ledger) s.stock
      { s with ledger := out.ledgerOpt.getD s.ledger, stock := out.stock
               vouchers := s.vouchers.set idx out.voucher }
  | .voucherDeleteOp useSession nowMs configuredHours idx =>
    match s.vouchers[idx]? with
    | none => s
    | some v =>
      let out := voucherDelete useSession nowMs configuredHours v (some s.ledger) s.stock
      let vouchers1 :=
        match out.voucherOpt with
        | none => s.vouchers.eraseIdx idx
        | some v1 => s.vouchers.set idx v1
      { s with ledger := out.ledgerOpt.getD s.ledger, stock := out.stock
               vouchers := vouchers1 }
  | .settlementCreateOp failPoint inp =>
    let out := settlementCreate failPoint inp s.ledger s.stock
    let settlements1 :=
      match out.settlementOpt with
      | none => s.settlements
      | some srec => s.settlements ++ [srec]
    { s with ledger := out.ledger, stock := out.stock, settlements := settlements1 }
  | .settlementDeleteOp nowMs configuredHours idx =>
    match s.settlements[idx]? with
    | none => s
    | some srec =>
      let out := settlementDelete nowMs configuredHours srec (some s.ledger) s.stock
      let settlements1 :=
        match out.settlementOpt with
        | none => s.settlements.eraseIdx idx
        | some srec1 => s.settlements.set idx srec1
      { s with ledger := out.ledgerOpt.getD s.ledger, stock := out.stock
               settlements := settlements1 }
  | .karigarCreateOp inp =>
    let out := karigarCreate inp s.stock
    let karigars1 :=
      match out.txOpt with
      | none => s.karigars
      | some k => s.karigars ++ [k]
    { s with stock := out.stock, karigars := karigars1 }
  | .karigarDeleteOp nowMs configuredHours idx =>
    match s.karigars[idx]? with
    | none => s
    | some k =>
      let out := karigarDelete nowMs configuredHours k s.stock
      { s with stock := out.stock, karigars := s.karigars.set idx out.tx }
  | .stockAddOp g sv cashAmount =>
    match addStock s.stock g sv cashAmount with
    | .ok st1 =>
      { s with stock := st1
               stockInputs := { gold := g, silver := sv, cashAmount := cashAmount }
                 :: s.stockInputs }
    | .error _ => s
  | .stockUndoOp =>
    match s.stockInputs with
    | [] => s
    | lastInput :: rest =>
      match undoStockInput s.stock lastInput with
      | .ok st1 => { s with stock := st1, stockInputs := rest }
      | .error _ => s
  | .recalcOp =>
    let fixedVouchers :=
      s.vouchers.map (fun v => if v.status = .active then fixVoucherTotal v else v)
    { s with ledger := recalculateBalance s.ledger fixedVouchers s.settlements
             vouchers := fixedVouchers }
  | .updateOpeningOp ob =>
    let hasTransactions : Bool := s.vouchers ≠ [] ∨ s.settlements ≠ []
    { s with ledger := updateLedgerOpening ob hasTransactions s.ledger }
  | .purgeOp =>
    { s with ledger := { s.ledger with balances := resetBalances }
             vouchers := [], settlements := [] }

/-- States reachable from a freshly onboarded tenant through any sequence
of requests. -/
inductive Reachable : SysState → Prop
  | init (lt : LedgerType) (ob : OpeningBalance) : Reachable (initState lt ob)
  | step {s : SysState} (op : Op) : Reachable s → Reachable (applyOp op s)

/-- The derived-amount invariant of the spec:
`balances.amount = balances.cashBalance + balances.creditBalance`. -/
def balOk (b : Balances) : Prop :=
  b.amount = b.cashBalance + b.creditBalance

/-- A voucher's stored `previousLedgerState` snapshot, when present,
itself satisfies the derived-amount invariant. -/
def snapOk (v : Voucher) : Prop :=
  ∀ snap, v.previousLedgerState = some snap → balOk snap

/-- The non-negative-stock invariant of the spec. -/
def stockNonneg (st : Stock) : Prop :=
  0 ≤ st.gold ∧ 0 ≤ st.silver

/-- The combined balance invariant tracked over system states. -/
def sysBalInv (s : SysState) : Prop :=
  balOk s.ledger.balances ∧ ∀ v ∈ s.vouchers, snapOk v

/- Concrete fixtures used by witnesses and counterexamples. -/

/-- A regular ledger carrying cash 100 and 20 g of gold fine. -/
def sampleLedger : Ledger :=
  { ledgerType := .regular, openingBalance := { amount := 0, goldFineWeight := 0, silverFineWeight := 0 }
    balances := { goldFineWeight := 20, silverFineWeight := 0, amount := 100
                  cashBalance := 100, creditBalance := 0 } }

/-- A tenant stock of 5 g gold and 5 g silver. -/
def sampleStock : Stock := { gold := 5, silver := 5, cashInHand := 0 }

/-- A `money_to_gold` voucher request: pay cash 50 at gold rate 5. -/
def sampleMoneyToGoldInput : VoucherInput :=
  { paymentType := .money_to_gold, invoiceType := .normal, voucherType := .sale
    items := [], stoneAmount := 0, fineAmount := 0, gstType := none, gstRate := 0
    cashReceived := 50, goldRate := 5, silverRate := 0, createdAtMs := some 0 }

/-- A cash sale of one gold item (1 g fine, 100 money), fully paid. -/
def sampleSaleInput : VoucherInput :=
  { paymentType := .cash, invoiceType := .normal, voucherType := .sale
    items := [{ metalType := .gold, fineWeight := 1, amount := 100 }]
    stoneAmount := 0, fineAmount := 0, gstType := none, gstRate := 0
    cashReceived := 100, goldRate := 0, silverRate := 0, createdAtMs := some 0 }

/-- A payment-direction gold settlement request: 5 g fine at rate 2. -/
def samplePaymentInput : SettlementInput :=
  { metalType := .gold, direction := .payment, isMoneyConversion := false
    fineGiven := 5, metalRate := 2, requestAmount := 0, createdAtMs := some 0 }

/-- A stored payment-direction settlement created at epoch 0. -/
def sampleSettlement : Settlement :=
  { metalType := .gold, fineGiven := 1, amount := 5, direction := .payment
    createdAtMs := some 0 }

/-- A stored karigar `given` transaction created at epoch 0. -/
def sampleKarigar : KarigarTx :=
  { type := .given, metalType := .gold, fineWeight := 2, isDeleted := false
    createdAtMs := some 0 }

/-- An active voucher carrying a snapshot of `sampleLedger`'s balances and
a 1 g gold stock adjustment. -/
def sampleVoucher : Voucher :=
  { paymentType := .cash, invoiceType := .normal, voucherType := .sale
    status := .active
    items := [{ metalType := .gold, fineWeight := 1, amount := 100 }]
    total := 100, cashReceived := 100, goldRate := 0, silverRate := 0
    stoneAmount := 0, fineAmount := 0, gstTotal := 0
    previousLedgerState := some sampleLedger.balances
    stockAdjusted := true, stockAdjustment := some { gold := 1, silver := 0 }
    stockRestored := false, createdAtMs := some 0 }

/-- A "now" 50 hours after epoch 0, past the default 48-hour window. -/
def expiredNow : ℚ := 50 * msPerHour

/-! Helper lemmas about the balance invariant. -/

theorem balOk_withUnifiedAmount (b : Balances) : balOk (withUnifiedAmount b) := by
  simp [balOk, withUnifiedAmount, calculateUnifiedAmount, add_comm]

theorem balOk_resetBalances : balOk resetBalances := by
  simp [balOk, resetBalances]

theorem balOk_applyVoucherBalances (inp : VoucherInput) (ca : ℚ) (b : Balances) :
    balOk (applyVoucherBalances inp ca b) := by
  unfold applyVoucherBalances
  apply balOk_withUnifiedAmount

theorem balOk_reverseLegacyBalances (v : Voucher) (b : Balances) :
    balOk (reverseLegacyBalances v b) := by
  unfold reverseLegacyBalances
  split <;> apply balOk_withUnifiedAmount

theorem reverse_balOk (v : Voucher) (l : Ledger) (st : Stock) (rs ms : Bool)
    (hb : balOk l.balances) (hs : snapOk v) :
    balOk (reverseVoucherEffects v l st rs ms).ledger.balances := by
  unfold reverseVoucherEffects
  dsimp only
  split
  · exact hb
  · split
    next snap heq => exact hs snap heq
    next heq =>
      split
      · exact hb
      · exact balOk_reverseLegacyBalances v l.balances

theorem reverse_ledger_of_snapshot (v : Voucher) (snap : Balances) (l : Ledger)
    (st : Stock) (rs ms : Bool) (hsnap : v.previousLedgerState = some snap)
    (herr : (reverseVoucherEffects v l st rs ms).err = none) :
    (reverseVoucherEffects v l st rs ms).ledger.balances = snap := by
  unfold reverseVoucherEffects at herr ⊢
  dsimp only at herr ⊢
  split at herr
  · simp at herr
  · simp [hsnap]

theorem reverse_stock_of_restored (v : Voucher) (l : Ledger) (st : Stock)
    (rs ms : Bool) (h : v.stockRestored = true) :
    (reverseVoucherEffects v l st rs ms).stock = st ∧
    (reverseVoucherEffects v l st rs ms).err = none := by
  unfold reverseVoucherEffects
  simp only [h, Bool.not_true, Bool.and_false, Bool.false_and, Bool.false_eq_true,
    if_false]
  split <;> (try split) <;> simp

theorem voucherApplyCore_snapshot (im : Bool) (fp : FailPoint) (inp : VoucherInput)
    (l : Ledger) (st : Stock) (lv : Ledger) (sv : Stock) (v : Voucher)
    (h : voucherApplyCore im fp inp l st = .ok lv sv v) :
    v.previousLedgerState = some l.balances := by
  unfold voucherApplyCore at h
  dsimp only at h
  split at h
  · simp at h
  · split at h
    · simp at h
    · simp at h
    · simp only [VCoreOut.ok.injEq] at h
      obtain ⟨-, -, h3⟩ := h
      subst h3
      rfl

theorem voucherCreate_snapshot (u : Bool) (fp : FailPoint) (im : Bool)
    (inp : VoucherInput) (l : Ledger) (st : Stock) (lv : Ledger) (sv : Stock)
    (v : Voucher) (h : voucherCreate u fp im inp l st = .ok lv sv v) :
    v.previousLedgerState = some l.balances := by
  unfold voucherCreate at h
  split at h
  · simp at h
  · split at h
    next a b c heq =>
      simp only [VCoreOut.ok.injEq] at h
      obtain ⟨-, -, rfl⟩ := h
      exact voucherApplyCore_snapshot im fp inp l st a b c heq
    next heq =>
      split at h <;> simp at h

/-- Claim C3: when a voucher carries a `previousLedgerState` snapshot,
`reverseVoucherEffects` overwrites the ledger balances verbatim with that
snapshot (whenever the reversal does not abort on a stock error), so a
voucher created from a ledger restores that ledger's exact pre-apply
balances even when the ledger has since been mutated arbitrarily. -/
theorem C3_snapshot_restore_exact :
    (∀ (v : Voucher) (snap : Balances) (l : Ledger) (st : Stock) (rs ms : Bool),
      v.previousLedgerState = some snap →
      (reverseVoucherEffects v l st rs ms).err = none →
      (reverseVoucherEffects v l st rs ms).ledger.balances = snap) ∧
    (∀ (u : Bool) (fp : FailPoint) (im : Bool) (inp : VoucherInput)
      (l : Ledger) (st : Stock) (lv : Ledger) (sv : Stock) (v : Voucher)
      (l2 : Ledger) (st2 : Stock) (rs ms : Bool),
      voucherCreate u fp im inp l st = .ok lv sv v →
      (reverseVoucherEffects v l2 st2 rs ms).err = none →
      (reverseVoucherEffects v l2 st2 rs ms).ledger.balances = l.balances) := by
  constructor
  · exact fun v snap l st rs ms hsnap herr =>
      reverse_ledger_of_snapshot v snap l st rs ms hsnap herr
  · intro u fp im inp l st lv sv v l2 st2 rs ms hcreate herr
    exact reverse_ledger_of_snapshot v l.balances l2 st2 rs ms
      (voucherCreate_snapshot u fp im inp l st lv sv v hcreate) herr

/-- Witness for C3: reversing the sample voucher (whose snapshot holds
`sampleLedger`'s balances) against a completely different ledger still
restores `sampleLedger`'s original balances. -/
theorem C3_snapshot_restore_exact_witness :
    (reverseVoucherEffects sampleVoucher
      (createLedger .regular { amount := 7, goldFineWeight := 3, silverFineWeight := 0 })
      sampleStock true false).ledger.balances = sampleLedger.balances :=
  C3_snapshot_restore_exact.1 sampleVoucher sampleLedger.balances
    (createLedger .regular { amount := 7, goldFineWeight := 3, silverFineWeight := 0 })
    sampleStock true false rfl rfl

/-- Claim C8: reversal is idempotent at the second attempt: cancelling an
already cancelled voucher, deleting an already soft-deleted karigar
transaction, and restoring stock for a voucher whose `stockRestored` flag
is set are all rejected or skipped with no state change. -/
theorem C8_second_reversal_noop :
    (∀ (u : Bool) (nowMs wh : ℚ) (v : Voucher) (lo : Option Ledger) (st : Stock),
      v.status = .cancelled →
      voucherCancel u nowMs wh v lo st =
        { voucher := v, ledgerOpt := lo, stock := st, success := false }) ∧
    (∀ (nowMs wh : ℚ) (k : KarigarTx) (st : Stock),
      k.isDeleted = true →
      karigarDelete nowMs wh k st = { tx := k, stock := st, success := false }) ∧
    (∀ (v : Voucher) (l : Ledger) (st : Stock) (rs ms : Bool),
      v.stockRestored = true →
      (reverseVoucherEffects v l st rs ms).stock = st) := by
  refine ⟨?_, ?_, ?_⟩
  · intro u nowMs wh v lo st h
    simp [voucherCancel, h]
  · intro nowMs wh k st h
    simp [karigarDelete, h]
  · intro v l st rs ms h
    exact (reverse_stock_of_restored v l st rs ms h).1

/-- Witness for C8: a cancelled copy of the sample voucher cannot be
cancelled again, a deleted copy of the sample karigar transaction cannot
be deleted again, and a stock-restored copy leaves stock untouched. -/
theorem C8_second_reversal_noop_witness :
    voucherCancel false 0 48 { sampleVoucher with status := .cancelled }
        (some sampleLedger) sampleStock =
      { voucher := { sampleVoucher with status := .cancelled }
        ledgerOpt := some sampleLedger, stock := sampleStock, success := false } ∧
    karigarDelete 0 48 { sampleKarigar with isDeleted := true } sampleStock =
      { tx := { sampleKarigar with isDeleted := true }, stock := sampleStock
        success := false } ∧
    (reverseVoucherEffects { sampleVoucher with stockRestored := true }
      sampleLedger sampleStock true true).stock = sampleStock :=
  ⟨C8_second_reversal_noop.1 false 0 48 _ _ sampleStock rfl,
   C8_second_reversal_noop.2.1 0 48 _ sampleStock rfl,
   C8_second_reversal_noop.2.2 _ sampleLedger sampleStock true true rfl⟩

/-- Claim C9: a payment-direction settlement that is not a money
conversion requires the matching fine-weight balance to cover `fineGiven`
and the credit balance to cover the amount (`fineGiven * metalRate`);
when either pre-check fails the request is rejected with the ledger,
stock and settlement collection untouched. -/
theorem C9_payment_prechecks :
    ∀ (fp : FailPoint) (inp : SettlementInput) (l : Ledger) (st : Stock),
      inp.direction = .payment → inp.isMoneyConversion = false →
      (fineOf inp.metalType l.balances < inp.fineGiven ∨
        l.balances.creditBalance < inp.fineGiven * inp.metalRate) →
      ∃ e, settlementCreate fp inp l st =
        { ledger := l, stock := st, settlementOpt := none, err := some e } ∧
        (e = .insufficientBalance ∨ e = .exceedsPendingCredit) := by
  intro fp inp l st hdir hconv hfail
  unfold settlementCreate
  dsimp only
  simp only [hconv, hdir]
  by_cases hfine : fineOf inp.metalType l.balances < inp.fineGiven
  · refine ⟨.insufficientBalance, ?_, Or.inl rfl⟩
    simp [hfine]
  · have hcredit : l.balances.creditBalance < inp.fineGiven * inp.metalRate := by
      rcases hfail with h | h
      · exact absurd h hfine
      · exact h
    refine ⟨.exceedsPendingCredit, ?_, Or.inr rfl⟩
    simp [hfine, hcredit]

/-- Witness for C9: the sample payment settlement (5 g at rate 2) against
`sampleLedger` (credit 0) is rejected with no state change. -/
theorem C9_payment_prechecks_witness :
    ∃ e, settlementCreate .noFail samplePaymentInput sampleLedger sampleStock =
      { ledger := sampleLedger, stock := sampleStock, settlementOpt := none
        err := some e } ∧
      (e = .insufficientBalance ∨ e = .exceedsPendingCredit) :=
  C9_payment_prechecks .noFail samplePaymentInput sampleLedger sampleStock
    rfl rfl (Or.inr (by norm_num [sampleLedger, samplePaymentInput]))

/-- Claim C10: cancelling a voucher whose ledger no longer exists still
succeeds and marks the voucher cancelled, with no balance or stock
reversal and `stockRestored` left as it was (false for an active voucher). -/
theorem C10_cancel_without_ledger :
    ∀ (u : Bool) (nowMs wh : ℚ) (v : Voucher) (st : Stock),
      v.status ≠ .cancelled →
      voucherCancel u nowMs wh v none st =
        { voucher := { v with status := .cancelled }, ledgerOpt := none
          stock := st, success := true } := by
  intro u nowMs wh v st h
  unfold voucherCancel
  dsimp only
  simp only [if_neg h]

/-- Witness for C10: cancelling the sample active voucher with a missing
ledger marks it cancelled, succeeds, and leaves the stock untouched and
`stockRestored` false. -/
theorem C10_cancel_without_ledger_witness :
    voucherCancel false 0 48 sampleVoucher none sampleStock =
      { voucher := { sampleVoucher with status := .cancelled }, ledgerOpt := none
        stock := sampleStock, success := true } :=
  C10_cancel_without_ledger false 0 48 sampleVoucher sampleStock
    (by simp [sampleVoucher])

/-- Counterexample for C4: the sample settlement is 50 hours old with a
48-hour window, yet its delete request is rejected (HTTP 400) and the
record is not deleted, contradicting the claim that the request still
proceeds for every record kind. -/
theorem C4_counterexample :
    (settlementDelete expiredNow 48 sampleSettlement (some sampleLedger)
      sampleStock).settlementOpt = some sampleSettlement ∧
    (settlementDelete expiredNow 48 sampleSettlement (some sampleLedger)
      sampleStock).success = false := by
  norm_num [settlementDelete, canReverseRecord, getReversalWindowHours, expiredNow,
    msPerHour, sampleSettlement, decide_eq_false_iff_not]

/-- Claim C4 as amended: past the reversal window, voucher cancellation
and deletion still proceed (the voucher is cancelled or removed) without
touching ledger balances or stock; a settlement or karigar delete request
is instead rejected with an error, leaving the record and all state
unchanged. -/
theorem C4_expired_window :
    (∀ (u : Bool) (nowMs wh : ℚ) (v : Voucher) (lo : Option Ledger) (st : Stock),
      v.status ≠ .cancelled →
      canReverseRecord nowMs v.createdAtMs wh = false →
      voucherCancel u nowMs wh v lo st =
        { voucher := { v with status := .cancelled }, ledgerOpt := lo, stock := st
          success := true }) ∧
    (∀ (u : Bool) (nowMs wh : ℚ) (v : Voucher) (l : Ledger) (st : Stock),
      canReverseRecord nowMs v.createdAtMs wh = false →
      voucherDelete u nowMs wh v (some l) st =
        { voucherOpt := none, ledgerOpt := some l, stock := st, success := true }) ∧
    (∀ (nowMs wh : ℚ) (s : Settlement) (lo : Option Ledger) (st : Stock),
      canReverseRecord nowMs s.createdAtMs wh = false →
      settlementDelete nowMs wh s lo st =
        { settlementOpt := some s, ledgerOpt := lo, stock := st, success := false }) ∧
    (∀ (nowMs wh : ℚ) (k : KarigarTx) (st : Stock),
      canReverseRecord nowMs k.createdAtMs wh = false →
      karigarDelete nowMs wh k st = { tx := k, stock := st, success := false }) := by
  refine ⟨?_, ?_, ?_, ?_⟩
  · intro u nowMs wh v lo st hs hcr
    unfold voucherCancel
    dsimp only
    rw [if_neg hs]
    simp only [hcr]
  · intro u nowMs wh v l st hcr
    unfold voucherDelete
    dsimp only
    simp [hcr]
  · intro nowMs wh s lo st hcr
    unfold settlementDelete
    simp [hcr]
  · intro nowMs wh k st hcr
    unfold karigarDelete
    by_cases hd : k.isDeleted = true
    · simp [hd]
    · simp [hd, hcr]

/-- Witness for C4 as amended: the expired sample voucher is still
cancelled with stock untouched, while the expired sample settlement and
karigar deletions are rejected with nothing changed. -/
theorem C4_expired_window_witness :
    voucherCancel false expiredNow 48 sampleVoucher (some sampleLedger) sampleStock =
      { voucher := { sampleVoucher with status := .cancelled }
        ledgerOpt := some sampleLedger, stock := sampleStock, success := true } ∧
    settlementDelete expiredNow 48 sampleSettlement (some sampleLedger) sampleStock =
      { settlementOpt := some sampleSettlement, ledgerOpt := some sampleLedger
        stock := sampleStock, success := false } ∧
    karigarDelete expiredNow 48 sampleKarigar sampleStock =
      { tx := sampleKarigar, stock := sampleStock, success := false } :=
  ⟨C4_expired_window.1 false expiredNow 48 sampleVoucher (some sampleLedger)
      sampleStock (by simp [sampleVoucher])
      (by norm_num [canReverseRecord, getReversalWindowHours, expiredNow, msPerHour,
        sampleVoucher, decide_eq_false_iff_not]),
   C4_expired_window.2.2.1 expiredNow 48 sampleSettlement (some sampleLedger)
      sampleStock
      (by norm_num [canReverseRecord, getReversalWindowHours, expiredNow, msPerHour,
        sampleSettlement, decide_eq_false_iff_not]),
   C4_expired_window.2.2.2 expiredNow 48 sampleKarigar sampleStock
      (by norm_num [canReverseRecord, getReversalWindowHours, expiredNow, msPerHour,
        sampleKarigar, decide_eq_false_iff_not])⟩

/-! Compensation lemmas: an inverse stock call undoes a completed one. -/

theorem deduct_addBack_cancel (st st1 : Stock) (g sv : ℚ)
    (h : deductFromStock st g sv = .ok st1) :
    addBackToStock st1 g sv = .ok st := by
  unfold deductFromStock at h
  split at h
  · simp at h
  next hneg =>
    split at h
    · simp only [Except.ok.injEq] at h
      subst h
      unfold addBackToStock
      rw [if_neg hneg]
      cases st
      simp
    · simp at h

theorem addBack_deduct_cancel (st st1 : Stock) (g sv : ℚ)
    (hg : 0 ≤ st.gold) (hs : 0 ≤ st.silver)
    (h : addBackToStock st g sv = .ok st1) :
    deductFromStock st1 g sv = .ok st := by
  unfold addBackToStock at h
  split at h
  · simp at h
  next hneg =>
    simp only [Except.ok.injEq] at h
    subst h
    unfold deductFromStock
    rw [if_neg hneg]
    rw [if_pos ⟨by simp; linarith, by simp; linarith⟩]
    cases st
    simp

theorem compensate_deduct_exact (st st1 : Stock) (g sv : ℚ)
    (h : deductFromStock st g sv = .ok st1) :
    compensateSettlementStock .deduct st1 g sv = st := by
  unfold compensateSettlementStock
  rw [deduct_addBack_cancel st st1 g sv h]

theorem compensate_add_exact (st st1 : Stock) (g sv : ℚ)
    (hg : 0 ≤ st.gold) (hs : 0 ≤ st.silver)
    (h : addBackToStock st g sv = .ok st1) :
    compensateSettlementStock .add st1 g sv = st := by
  unfold compensateSettlementStock
  rw [addBack_deduct_cancel st st1 g sv hg hs h]

theorem voucherApplyCore_fail_of_failPoint (im : Bool) (fp : FailPoint)
    (inp : VoucherInput) (l : Ledger) (st : Stock) (hfp : fp ≠ .noFail) :
    ∀ l2 s2 v, voucherApplyCore im fp inp l st ≠ .ok l2 s2 v := by
  intro l2 s2 v h
  unfold voucherApplyCore at h
  dsimp only at h
  split at h
  · simp at h
  · split at h <;> simp_all

theorem deduct_eval (st : Stock) (g sv : ℚ) (h1 : ¬(g < 0 ∨ sv < 0))
    (h2 : g ≤ st.gold ∧ sv ≤ st.silver) :
    deductFromStock st g sv =
      .ok { st with gold := st.gold - g, silver := st.silver - sv } := by
  unfold deductFromStock
  rw [if_neg h1, if_pos h2]

theorem applyStockAdj_sale_deduct (st : Stock) (adj : StockAdj)
    (hg : 0 ≤ adj.gold) (hsv : 0 ≤ adj.silver)
    (hnz : 0 < adj.gold ∨ 0 < adj.silver)
    (hle : adj.gold ≤ st.gold ∧ adj.silver ≤ st.silver) :
    applyStockAdjustmentForVoucher st adj .sale false =
      ({ st with gold := st.gold - adj.gold, silver := st.silver - adj.silver }, none) := by
  unfold applyStockAdjustmentForVoucher
  dsimp only
  rw [max_eq_right hg, max_eq_right hsv, max_eq_left (neg_nonpos.mpr hg),
    max_eq_left (neg_nonpos.mpr hsv), if_pos hnz]
  simp only [Bool.false_eq_true, if_false, decide_eq_true_eq, reduceCtorEq,
    decide_False, Bool.not_false, if_true]
  rw [deduct_eval st adj.gold adj.silver (by push_neg; exact ⟨hg, hsv⟩) hle]
  norm_num

theorem voucherCreate_recordSave_noSession (im : Bool) (inp : VoucherInput)
    (l : Ledger) (st st1 : Stock)
    (hval : ¬(isSettlementType inp.paymentType = false ∧ inp.items = []))
    (hstep : voucherStockStep im inp st = (st1, none)) :
    voucherCreate false .atRecordSave im inp l st =
      .fail (voucherNewLedger inp l) st1 .storageError := by
  unfold voucherCreate voucherApplyCore
  rw [if_neg hval, hstep]
  rfl

/-- Counterexample for C5: a failing voucher create (storage fault at the
voucher save) run without a Mongo session returns an error, yet the stock
deduction it already applied survives - no compensating inverse stock
call is issued. -/
theorem C5_counterexample :
    (voucherCreate false .atRecordSave false sampleSaleInput sampleLedger
      sampleStock).isOk = false ∧
    (voucherCreate false .atRecordSave false sampleSaleInput sampleLedger
      sampleStock).outStock ≠ sampleStock := by
  have hadj : voucherStockAdjustment false sampleSaleInput = { gold := 1, silver := 0 } := by
    norm_num [voucherStockAdjustment, voucherCleanedItems, usesStockAdjustment,
      sampleSaleInput, getFineByMetal]
  have hstep : voucherStockStep false sampleSaleInput sampleStock =
      ({ sampleStock with gold := 4 }, none) := by
    unfold voucherStockStep
    rw [hadj]
    rw [if_pos (show hasNonZeroStockAdjustment { gold := 1, silver := 0 } = true by
      norm_num [hasNonZeroStockAdjustment])]
    rw [show sampleSaleInput.voucherType = .sale from rfl]
    rw [applyStockAdj_sale_deduct sampleStock { gold := 1, silver := 0 }
      (by norm_num) (by norm_num) (by norm_num) (by norm_num [sampleStock])]
    norm_num [sampleStock]
  rw [voucherCreate_recordSave_noSession false sampleSaleInput sampleLedger sampleStock
    { sampleStock with gold := 4 }
    (by norm_num [sampleSaleInput, isSettlementType]) hstep]
  refine ⟨rfl, ?_⟩
  norm_num [VCoreOut.outStock, sampleStock, Stock.mk.injEq]

/-- Claim C5 as amended: settlement create compensates an applied stock
adjustment with the exact inverse call before returning any error (so a
failed settlement request leaves stock unchanged); voucher create issues
no compensating call and instead relies on aborting the Mongo session
when one is active, in which case a failed request leaves ledger and
stock unchanged. -/
theorem C5_compensation :
    (∀ (fp : FailPoint) (inp : SettlementInput) (l : Ledger) (st : Stock),
      stockNonneg st → fp ≠ .noFail →
      (settlementCreate fp inp l st).stock = st ∧
      (settlementCreate fp inp l st).err ≠ none) ∧
    (∀ (fp : FailPoint) (im : Bool) (inp : VoucherInput) (l : Ledger) (st : Stock),
      fp ≠ .noFail →
      ∃ e, voucherCreate true fp im inp l st = .fail l st e) := by
  constructor
  · intro fp inp l st hnn hfp
    unfold settlementCreate
    dsimp only
    by_cases hconv : inp.isMoneyConversion = true
    · simp only [hconv, Bool.true_eq_false, false_and, and_false, if_false, if_true,
        true_and, if_neg (fun h : False => h.elim)]
      split
      · simp
      · cases hres : addBackToStock st (if inp.metalType = Metal.gold then inp.fineGiven else 0)
          (if inp.metalType = Metal.silver then inp.fineGiven else 0) with
        | error e => simp [hres]
        | ok st1 =>
          dsimp only
          rw [compensate_add_exact st st1 _ _ hnn.1 hnn.2 hres]
          cases fp with
          | noFail => exact absurd rfl hfp
          | atLedgerSave => split <;> (try split) <;> simp_all
          | atRecordSave => split <;> (try split) <;> simp_all
    · have hc : inp.isMoneyConversion = false := by
        simpa using hconv
      simp only [hc, Bool.false_eq_true, false_and, and_false, if_false, true_and]
      by_cases hdir : inp.direction = .payment
      · simp only [hdir, true_and, and_true]
        split
        · simp
        · split
          · simp
          · cases hres : deductFromStock st
              (if inp.metalType = Metal.gold then inp.fineGiven else 0)
              (if inp.metalType = Metal.silver then inp.fineGiven else 0) with
            | error e => simp [hres]
            | ok st1 =>
              simp only [if_true, reduceCtorEq, if_false]
              rw [compensate_deduct_exact st st1 _ _ hres]
              cases fp with
              | noFail => exact absurd rfl hfp
              | atLedgerSave => split <;> (try split) <;> simp_all
              | atRecordSave => split <;> (try split) <;> simp_all
      · have hd : inp.direction = .receipt := by
          cases hD : inp.direction
          · exact absurd hD hdir
          · rfl
        simp only [hd, reduceCtorEq, false_and, if_false]
        cases hres : addBackToStock st
            (if inp.metalType = Metal.gold then inp.fineGiven else 0)
            (if inp.metalType = Metal.silver then inp.fineGiven else 0) with
        | error e => simp [hres]
        | ok st1 =>
          dsimp only
          rw [compensate_add_exact st st1 _ _ hnn.1 hnn.2 hres]
          cases fp with
          | noFail => exact absurd rfl hfp
          | atLedgerSave => split <;> (try split) <;> simp_all
          | atRecordSave => split <;> (try split) <;> simp_all
  · intro fp im inp l st hfp
    unfold voucherCreate
    split
    · exact ⟨.invalidRequest, rfl⟩
    · split
      next l2 s2 v heq =>
        exact absurd heq (by
          intro h
          exact voucherApplyCore_fail_of_failPoint im fp inp l st hfp l2 s2 v h)
      next l2 s2 e heq =>
        exact ⟨e, rfl⟩

/-- Witness for C5 as amended: the failing sample settlement leaves the
stock exactly as it was, and the failing sample voucher create inside a
session leaves ledger and stock untouched. -/
theorem C5_compensation_witness :
    ((settlementCreate .atRecordSave samplePaymentInput
        { sampleLedger with balances :=
            { sampleLedger.balances with creditBalance := 100, amount := 200 } }
        sampleStock).stock = sampleStock ∧
      (settlementCreate .atRecordSave samplePaymentInput
        { sampleLedger with balances :=
            { sampleLedger.balances with creditBalance := 100, amount := 200 } }
        sampleStock).err ≠ none) ∧
    ∃ e, voucherCreate true .atRecordSave false sampleSaleInput sampleLedger
        sampleStock = .fail sampleLedger sampleStock e :=
  ⟨C5_compensation.1 .atRecordSave samplePaymentInput
      { sampleLedger with balances :=
          { sampleLedger.balances with creditBalance := 100, amount := 200 } }
      sampleStock (by constructor <;> norm_num [sampleStock]) (by simp),
   C5_compensation.2 .atRecordSave false sampleSaleInput sampleLedger sampleStock
      (by simp)⟩

/-! Evaluation lemmas for settlement-type vouchers and GST ledgers. -/

theorem voucherStockAdjustment_settlement (im : Bool) (inp : VoucherInput)
    (hset : isSettlementType inp.paymentType = true) :
    voucherStockAdjustment im inp = { gold := 0, silver := 0 } := by
  unfold voucherStockAdjustment
  have huse : usesStockAdjustment inp.paymentType = false := by
    cases hpt : inp.paymentType <;> simp_all [isSettlementType, usesStockAdjustment]
  simp [huse]

theorem voucherCreate_settlement_noStock (u im : Bool) (inp : VoucherInput)
    (l : Ledger) (st : Stock) (hset : isSettlementType inp.paymentType = true) :
    voucherCreate u .noFail im inp l st =
      .ok (voucherNewLedger inp l) st
        (mkVoucherRecord inp (voucherCleanedItems inp) (voucherTotal inp)
          (voucherStockAdjustment im inp) l.balances) := by
  unfold voucherCreate voucherApplyCore
  rw [if_neg (by simp [hset])]
  have hstep : voucherStockStep im inp st = (st, none) := by
    unfold voucherStockStep
    rw [voucherStockAdjustment_settlement im inp hset]
    rw [if_neg (by norm_num [hasNonZeroStockAdjustment])]
  rw [hstep]

theorem applyVoucherBalances_money_to_gold (inp : VoucherInput) (ca : ℚ) (b : Balances)
    (h : inp.paymentType = .money_to_gold) :
    applyVoucherBalances inp ca b =
      withUnifiedAmount
        { b with goldFineWeight :=
            b.goldFineWeight - inp.cashReceived / rateOr1 inp.goldRate } := by
  unfold applyVoucherBalances
  rw [h]

theorem applyVoucherBalances_money_to_silver (inp : VoucherInput) (ca : ℚ) (b : Balances)
    (h : inp.paymentType = .money_to_silver) :
    applyVoucherBalances inp ca b =
      withUnifiedAmount
        { b with silverFineWeight :=
            b.silverFineWeight - inp.cashReceived / rateOr1 inp.silverRate } := by
  unfold applyVoucherBalances
  rw [h]

theorem voucherNewLedger_regular (inp : VoucherInput) (l : Ledger)
    (hl : l.ledgerType = .regular) (hi : inp.invoiceType = .normal) :
    voucherNewLedger inp l =
      { l with balances :=
          applyVoucherBalances inp (voucherCurrentAmount inp l.balances) l.balances } := by
  unfold voucherNewLedger
  rw [if_pos ⟨by simp [hi], by simp [hl]⟩]

/-- Counterexample for C6: a money_to_gold voucher of amount 50 at gold
rate 5 on a regular ledger with cash 100 reduces the gold fine weight to
10 but leaves cashBalance at 100; the claim predicts cashBalance 50. -/
theorem C6_counterexample :
    (voucherCreate false .noFail false sampleMoneyToGoldInput sampleLedger
      sampleStock).outLedger.balances.cashBalance = 100 ∧
    sampleLedger.balances.cashBalance - sampleMoneyToGoldInput.cashReceived = 50 ∧
    ((100 : ℚ) = 50 → False) ∧
    (voucherCreate false .noFail false sampleMoneyToGoldInput sampleLedger
      sampleStock).outLedger.balances.goldFineWeight = 10 := by
  rw [voucherCreate_settlement_noStock false false sampleMoneyToGoldInput sampleLedger
    sampleStock rfl]
  rw [voucherNewLedger_regular sampleMoneyToGoldInput sampleLedger rfl rfl]
  rw [applyVoucherBalances_money_to_gold sampleMoneyToGoldInput _ sampleLedger.balances rfl]
  refine ⟨rfl, by norm_num [sampleLedger, sampleMoneyToGoldInput], by norm_num, ?_⟩
  norm_num [VCoreOut.outLedger, withUnifiedAmount, calculateUnifiedAmount, sampleLedger,
    sampleMoneyToGoldInput, rateOr1]

/-- Claim C6 as amended: a money_to_gold (resp. money_to_silver) voucher
on a regular ledger with a normal invoice decreases only the matching
metal's fine weight, by amount divided by the (zero-guarded) metal rate;
cashBalance and creditBalance are left unchanged and stock is untouched.
The balance-recalculation replay applies the same rule. -/
theorem C6_money_conversion :
    (∀ (u im : Bool) (inp : VoucherInput) (l : Ledger) (st : Stock),
      l.ledgerType = .regular → inp.invoiceType = .normal →
      inp.paymentType = .money_to_gold →
      ∃ v, voucherCreate u .noFail im inp l st =
        .ok
          { l with balances := (withUnifiedAmount
              { l.balances with goldFineWeight := l.balances.goldFineWeight - inp.cashReceived / rateOr1 inp.goldRate }) }
          st v) ∧
    (∀ (u im : Bool) (inp : VoucherInput) (l : Ledger) (st : Stock),
      l.ledgerType = .regular → inp.invoiceType = .normal →
      inp.paymentType = .money_to_silver →
      ∃ v, voucherCreate u .noFail im inp l st =
        .ok
          { l with balances := (withUnifiedAmount
              { l.balances with silverFineWeight := l.balances.silverFineWeight - inp.cashReceived / rateOr1 inp.silverRate }) }
          st v) ∧
    (∀ (b : Balances) (v : Voucher), v.paymentType = .money_to_gold →
      v.invoiceType = .normal →
      replayVoucher b v =
        { b with goldFineWeight := b.goldFineWeight - v.cashReceived / rateOr1 v.goldRate }) := by
  refine ⟨?_, ?_, ?_⟩
  · intro u im inp l st hl hi hpt
    refine ⟨mkVoucherRecord inp (voucherCleanedItems inp) (voucherTotal inp)
      (voucherStockAdjustment im inp) l.balances, ?_⟩
    rw [voucherCreate_settlement_noStock u im inp l st (by rw [hpt]; rfl)]
    rw [voucherNewLedger_regular inp l hl hi]
    rw [applyVoucherBalances_money_to_gold inp _ l.balances hpt]
  · intro u im inp l st hl hi hpt
    refine ⟨mkVoucherRecord inp (voucherCleanedItems inp) (voucherTotal inp)
      (voucherStockAdjustment im inp) l.balances, ?_⟩
    rw [voucherCreate_settlement_noStock u im inp l st (by rw [hpt]; rfl)]
    rw [voucherNewLedger_regular inp l hl hi]
    rw [applyVoucherBalances_money_to_silver inp _ l.balances hpt]
  · intro b v hpt hi
    unfold replayVoucher
    rw [if_neg (by simp [hi]), hpt]

/-- Witness for C6 as amended: the sample money_to_gold voucher on
`sampleLedger` yields exactly the predicted ledger with stock untouched. -/
theorem C6_money_conversion_witness :
    ∃ v, voucherCreate false .noFail false sampleMoneyToGoldInput sampleLedger
        sampleStock =
      .ok
        { sampleLedger with balances := (withUnifiedAmount
            { sampleLedger.balances with goldFineWeight := sampleLedger.balances.goldFineWeight - sampleMoneyToGoldInput.cashReceived / rateOr1 sampleMoneyToGoldInput.goldRate }) }
        sampleStock v :=
  C6_money_conversion.1 false false sampleMoneyToGoldInput sampleLedger sampleStock
    rfl rfl rfl

/-! GST-ledger lemmas. -/

theorem voucherNewLedger_gst (inp : VoucherInput) (l : Ledger)
    (h : l.ledgerType = .gst) : voucherNewLedger inp l = l := by
  unfold voucherNewLedger
  rw [if_neg]
  simp [h]

theorem voucherApplyCore_gst (im : Bool) (fp : FailPoint) (inp : VoucherInput)
    (l : Ledger) (st : Stock) (h : l.ledgerType = .gst) :
    (voucherApplyCore im fp inp l st).outLedger = l := by
  unfold voucherApplyCore
  split
  · rfl
  · dsimp only
    split <;> simp [VCoreOut.outLedger, voucherNewLedger_gst inp l h]

theorem voucherCreate_gst (u : Bool) (fp : FailPoint) (im : Bool) (inp : VoucherInput)
    (l : Ledger) (st : Stock) (h : l.ledgerType = .gst) :
    (voucherCreate u fp im inp l st).outLedger = l := by
  unfold voucherCreate
  split
  · rfl
  · have hcore := voucherApplyCore_gst im fp inp l st h
    split
    next a b c heq =>
      rw [heq] at hcore
      exact hcore
    next a b e heq =>
      rw [heq] at hcore
      split
      · rfl
      · exact hcore

/-- Counterexample for C7: creating a GST ledger with an opening balance
of 100 initialises `balances.amount` (and `cashBalance`) to 100, not 0 -
ledger creation copies the opening balance regardless of ledger type. -/
theorem C7_counterexample :
    (createLedger .gst
      { amount := 100, goldFineWeight := 0, silverFineWeight := 0 }).ledgerType = .gst ∧
    (createLedger .gst
      { amount := 100, goldFineWeight := 0, silverFineWeight := 0 }).balances.amount = 100 ∧
    ((100 : ℚ) = 0 → False) :=
  ⟨rfl, rfl, by norm_num⟩

/-- Claim C7 as amended: a GST ledger created with a zero opening balance
starts at zero balances, voucher creation never touches a GST ledger's
balances (whatever the outcome), and balance recalculation pins a GST
ledger to zero; but ledger creation itself copies the opening balance
into the balances regardless of ledger type, so a GST ledger created with
a nonzero opening balance carries nonzero balances. -/
theorem C7_gst_balances :
    (∀ ob : OpeningBalance, ob.amount = 0 → ob.goldFineWeight = 0 →
      ob.silverFineWeight = 0 → (createLedger .gst ob).balances = resetBalances) ∧
    (∀ (u : Bool) (fp : FailPoint) (im : Bool) (inp : VoucherInput) (l : Ledger)
      (st : Stock), l.ledgerType = .gst →
      (voucherCreate u fp im inp l st).outLedger.balances = l.balances) ∧
    (∀ (l : Ledger) (vs : List Voucher) (ss : List Settlement),
      l.ledgerType = .gst → (recalculateBalance l vs ss).balances = resetBalances) := by
  refine ⟨?_, ?_, ?_⟩
  · intro ob h1 h2 h3
    unfold createLedger resetBalances
    simp [h1, h2, h3]
  · intro u fp im inp l st h
    rw [voucherCreate_gst u fp im inp l st h]
  · intro l vs ss h
    unfold recalculateBalance
    rw [if_pos h]

/-- Witness for C7 as amended: a zero-opening GST ledger starts at zero,
a cash sale on it leaves its balances unchanged, and recalculation keeps
it at zero. -/
theorem C7_gst_balances_witness :
    (createLedger .gst
      { amount := 0, goldFineWeight := 0, silverFineWeight := 0 }).balances
        = resetBalances ∧
    (voucherCreate false .noFail false sampleSaleInput
      (createLedger .gst { amount := 0, goldFineWeight := 0, silverFineWeight := 0 })
      sampleStock).outLedger.balances =
      (createLedger .gst
        { amount := 0, goldFineWeight := 0, silverFineWeight := 0 }).balances ∧
    (recalculateBalance
      (createLedger .gst { amount := 0, goldFineWeight := 0, silverFineWeight := 0 })
      [] []).balances = resetBalances :=
  ⟨C7_gst_balances.1 _ rfl rfl rfl,
   C7_gst_balances.2.1 false .noFail false sampleSaleInput _ sampleStock rfl,
   C7_gst_balances.2.2 _ [] [] rfl⟩

/-! Preservation of the derived-amount invariant by every route. -/

theorem balOk_createLedger (lt : LedgerType) (ob : OpeningBalance) :
    balOk (createLedger lt ob).balances := by
  simp [balOk, createLedger]

theorem balOk_updateLedgerOpening (ob : OpeningBalance) (ht : Bool) (l : Ledger)
    (h : balOk l.balances) : balOk (updateLedgerOpening ob ht l).balances := by
  unfold updateLedgerOpening
  dsimp only
  split
  · exact h
  · split
    · exact balOk_resetBalances
    · simp [balOk]

theorem balOk_recalculateBalance (l : Ledger) (vs : List Voucher)
    (ss : List Settlement) : balOk (recalculateBalance l vs ss).balances := by
  unfold recalculateBalance
  dsimp only
  split
  · exact balOk_resetBalances
  · exact balOk_withUnifiedAmount _

theorem balOk_voucherNewLedger (inp : VoucherInput) (l : Ledger)
    (h : balOk l.balances) : balOk (voucherNewLedger inp l).balances := by
  unfold voucherNewLedger
  split
  · exact balOk_applyVoucherBalances _ _ _
  · exact h

theorem balOk_voucherApplyCore (im : Bool) (fp : FailPoint) (inp : VoucherInput)
    (l : Ledger) (st : Stock) (h : balOk l.balances) :
    balOk (voucherApplyCore im fp inp l st).outLedger.balances := by
  unfold voucherApplyCore
  split
  · exact h
  · dsimp only
    split
    · exact h
    · exact balOk_voucherNewLedger inp l h
    · exact balOk_voucherNewLedger inp l h

theorem balOk_voucherCreate (u : Bool) (fp : FailPoint) (im : Bool)
    (inp : VoucherInput) (l : Ledger) (st : Stock) (h : balOk l.balances) :
    balOk (voucherCreate u fp im inp l st).outLedger.balances := by
  unfold voucherCreate
  split
  · exact h
  · have hcore := balOk_voucherApplyCore im fp inp l st h
    split
    next a b c heq => rw [heq] at hcore; exact hcore
    next a b e heq =>
      rw [heq] at hcore
      split
      · exact h
      · exact hcore

theorem balOk_voucherEdit (u : Bool) (fp : FailPoint) (im : Bool) (nowMs wh : ℚ)
    (inp : VoucherInput) (v : Voucher) (l : Ledger) (st : Stock)
    (hb : balOk l.balances) (hs : snapOk v) :
    balOk (voucherEdit u fp im nowMs wh inp v l st).ledger.balances := by
  have hrev := reverse_balOk v l st true false hb hs
  have h2 := balOk_voucherApplyCore im fp inp
    (reverseVoucherEffects v l st true false).ledger
    (reverseVoucherEffects v l st true false).stock hrev
  unfold voucherEdit
  dsimp only
  cases hcc : voucherApplyCore im fp inp
      (reverseVoucherEffects v l st true false).ledger
      (reverseVoucherEffects v l st true false).stock with
  | ok a b c =>
    rw [hcc] at h2
    repeat' first
    | exact hb
    | exact hrev
    | exact h2
    | simp_all
    | split
  | fail a b e =>
    rw [hcc] at h2
    repeat' first
    | exact hb
    | exact hrev
    | exact h2
    | simp_all
    | split

theorem balOk_voucherCancel (u : Bool) (nowMs wh : ℚ) (v : Voucher) (l : Ledger)
    (st : Stock) (hb : balOk l.balances) (hs : snapOk v) :
    balOk (((voucherCancel u nowMs wh v (some l) st).ledgerOpt.getD l).balances) := by
  unfold voucherCancel
  dsimp only
  cases hcr : canReverseRecord nowMs v.createdAtMs wh with
  | false =>
    repeat' first
    | (simp only [Option.getD_some]; exact hb)
    | simp_all
    | split
  | true =>
    repeat' first
    | (simp only [Option.getD_some]; first
        | exact hb
        | exact reverse_balOk v l st true true hb hs)
    | simp_all
    | split

theorem balOk_voucherDelete (u : Bool) (nowMs wh : ℚ) (v : Voucher) (l : Ledger)
    (st : Stock) (hb : balOk l.balances) (hs : snapOk v) :
    balOk (((voucherDelete u nowMs wh v (some l) st).ledgerOpt.getD l).balances) := by
  unfold voucherDelete
  dsimp only
  repeat' first
  | (simp only [Option.getD_some]; exact reverse_balOk v l st true false hb hs)
  | (simp only [Option.getD_some]; exact hb)
  | split

theorem balOk_settlementCreate (fp : FailPoint) (inp : SettlementInput) (l : Ledger)
    (st : Stock) (hb : balOk l.balances) :
    balOk (settlementCreate fp inp l st).ledger.balances := by
  unfold settlementCreate
  dsimp only
  repeat' first
  | exact hb
  | exact balOk_withUnifiedAmount _
  | split

theorem balOk_settlementDelete (nowMs wh : ℚ) (s : Settlement) (l : Ledger)
    (st : Stock) (hb : balOk l.balances) :
    balOk (((settlementDelete nowMs wh s (some l) st).ledgerOpt.getD l).balances) := by
  unfold settlementDelete
  dsimp only
  repeat' first
  | (simp only [Option.getD_some]; exact hb)
  | (simp only [Option.getD_some]; exact balOk_withUnifiedAmount _)
  | split

/-! Preservation of the snapshot invariant by every route. -/

theorem snapOk_of_prev_eq (v w : Voucher)
    (h : w.previousLedgerState = v.previousLedgerState) (hs : snapOk v) : snapOk w := by
  intro snap hsnap
  exact hs snap (h ▸ hsnap)

theorem reverse_voucher_prev (v : Voucher) (l : Ledger) (st : Stock) (rs ms : Bool) :
    (reverseVoucherEffects v l st rs ms).voucher.previousLedgerState =
      v.previousLedgerState := by
  unfold reverseVoucherEffects
  dsimp only
  split
  next st1 e v1 heq =>
    split at heq
    · split at heq <;> simp_all
    · simp_all
  next st1 v1 heq =>
    have hv1 : v1.previousLedgerState = v.previousLedgerState := by
      split at heq
      · split at heq
        · simp_all
        · have h3 := congrArg (fun p => p.2.2) heq
          dsimp only at h3
          rw [← h3]
          split <;> rfl
      · have h3 := congrArg (fun p => p.2.2) heq
        dsimp only at h3
        rw [← h3]
    split
    · exact hv1
    · split
      · exact hv1
      · exact hv1

theorem snapOk_voucherCreate (u : Bool) (fp : FailPoint) (im : Bool)
    (inp : VoucherInput) (l : Ledger) (st : Stock) (lv : Ledger) (sv : Stock)
    (v : Voucher) (heq : voucherCreate u fp im inp l st = .ok lv sv v)
    (h : balOk l.balances) : snapOk v := by
  intro snap hsnap
  rw [voucherCreate_snapshot u fp im inp l st lv sv v heq] at hsnap
  obtain rfl : l.balances = snap := by injection hsnap
  exact h

theorem snapOk_voucherApplyCore (im : Bool) (fp : FailPoint) (inp : VoucherInput)
    (l : Ledger) (st : Stock) (lv : Ledger) (sv : Stock) (v : Voucher)
    (heq : voucherApplyCore im fp inp l st = .ok lv sv v)
    (h : balOk l.balances) : snapOk v := by
  intro snap hsnap
  rw [voucherApplyCore_snapshot im fp inp l st lv sv v heq] at hsnap
  obtain rfl : l.balances = snap := by injection hsnap
  exact h

theorem snapOk_voucherEdit (u : Bool) (fp : FailPoint) (im : Bool) (nowMs wh : ℚ)
    (inp : VoucherInput) (v : Voucher) (l : Ledger) (st : Stock)
    (hb : balOk l.balances) (hs : snapOk v) :
    snapOk (voucherEdit u fp im nowMs wh inp v l st).voucher := by
  have hrev := reverse_balOk v l st true false hb hs
  unfold voucherEdit
  dsimp only
  cases hcc : voucherApplyCore im fp inp
      (reverseVoucherEffects v l st true false).ledger
      (reverseVoucherEffects v l st true false).stock with
  | ok a b c =>
    have hc := snapOk_voucherApplyCore im fp inp
      (reverseVoucherEffects v l st true false).ledger
      (reverseVoucherEffects v l st true false).stock a b c hcc hrev
    repeat' first
    | exact hs
    | exact hc
    | simp_all
    | split
  | fail a b e =>
    repeat' first
    | exact hs
    | simp_all
    | split

theorem snapOk_voucherCancel (u : Bool) (nowMs wh : ℚ) (v : Voucher)
    (lo : Option Ledger) (st : Stock) (hs : snapOk v) :
    snapOk (voucherCancel u nowMs wh v lo st).voucher := by
  unfold voucherCancel
  dsimp only
  repeat' first
  | exact hs
  | exact snapOk_of_prev_eq v _ (reverse_voucher_prev v _ st true true) hs
  | exact snapOk_of_prev_eq v _ rfl hs
  | split

theorem voucherDelete_voucherOpt (u : Bool) (nowMs wh : ℚ) (v : Voucher)
    (lo : Option Ledger) (st : Stock) (v1 : Voucher)
    (h : (voucherDelete u nowMs wh v lo st).voucherOpt = some v1) : v1 = v := by
  unfold voucherDelete at h
  dsimp only at h
  repeat' first
  | (injection h with h; exact h.symm)
  | simp_all
  | split at h

theorem fixVoucherTotal_prev (v : Voucher) :
    (fixVoucherTotal v).previousLedgerState = v.previousLedgerState := by
  unfold fixVoucherTotal
  split <;> rfl

theorem mem_of_getElem?_eq {α : Type} (l : List α) (i : ℕ) (a : α)
    (h : l[i]? = some a) : a ∈ l := by
  obtain ⟨hlt, rfl⟩ := List.getElem?_eq_some_iff.mp h
  exact List.getElem_mem hlt

/-! Preservation of the non-negative-stock invariant. -/

theorem stockNonneg_deduct (st st1 : Stock) (g sv : ℚ)
    (h : deductFromStock st g sv = .ok st1) : stockNonneg st1 := by
  unfold deductFromStock at h
  split at h
  · simp at h
  · split at h
    next hle =>
      simp only [Except.ok.injEq] at h
      subst h
      exact ⟨sub_nonneg.mpr hle.1, sub_nonneg.mpr hle.2⟩
    · simp at h

theorem stockNonneg_addBack (st st1 : Stock) (g sv : ℚ) (hn : stockNonneg st)
    (h : addBackToStock st g sv = .ok st1) : stockNonneg st1 := by
  unfold addBackToStock at h
  split at h
  · simp at h
  next hneg =>
    push_neg at hneg
    simp only [Except.ok.injEq] at h
    subst h
    exact ⟨add_nonneg hn.1 hneg.1, add_nonneg hn.2 hneg.2⟩

theorem stockNonneg_addStock (st st1 : Stock) (g sv c : ℚ) (hn : stockNonneg st)
    (h : addStock st g sv c = .ok st1) : stockNonneg st1 := by
  unfold addStock at h
  split at h
  · simp at h
  next hneg =>
    push_neg at hneg
    simp only [Except.ok.injEq] at h
    subst h
    exact ⟨add_nonneg hn.1 hneg.1, add_nonneg hn.2 hneg.2.1⟩

theorem stockNonneg_undo (st st1 : Stock) (lastInput : StockInputRec)
    (h : undoStockInput st lastInput = .ok st1) : stockNonneg st1 := by
  unfold undoStockInput at h
  dsimp only at h
  split at h
  · simp at h
  next hneg =>
    push_neg at hneg
    simp only [Except.ok.injEq] at h
    subst h
    exact ⟨hneg.1, hneg.2⟩

theorem stockNonneg_compensate (act : StockAction) (st : Stock) (g sv : ℚ)
    (hn : stockNonneg st) : stockNonneg (compensateSettlementStock act st g sv) := by
  unfold compensateSettlementStock
  cases act with
  | deduct =>
    cases hres : addBackToStock st g sv with
    | ok st1 => exact stockNonneg_addBack st st1 g sv hn hres
    | error e => exact hn
  | add =>
    cases hres : deductFromStock st g sv with
    | ok st1 => exact stockNonneg_deduct st st1 g sv hres
    | error e => exact hn

theorem stockNonneg_applyAdj (st : Stock) (adj : StockAdj) (vt : VoucherType)
    (rev : Bool) (hn : stockNonneg st) :
    stockNonneg (applyStockAdjustmentForVoucher st adj vt rev).1 := by
  unfold applyStockAdjustmentForVoucher
  dsimp only
  split
  · exact hn
  next st1 heq =>
    have h1 : stockNonneg st1 := by
      repeat' first
      | exact stockNonneg_deduct _ _ _ _ heq
      | exact stockNonneg_addBack _ _ _ _ hn heq
      | (simp only [Except.ok.injEq] at heq; subst heq; exact hn)
      | split at heq
    split
    · exact h1
    next st2 heq2 =>
      have h2 : stockNonneg st2 := by
        repeat' first
        | exact stockNonneg_deduct _ _ _ _ heq2
        | exact stockNonneg_addBack _ _ _ _ h1 heq2
        | (simp only [Except.ok.injEq] at heq2; subst heq2; exact h1)
        | split at heq2
      exact h2

theorem stockNonneg_voucherStockStep (im : Bool) (inp : VoucherInput) (st : Stock)
    (hn : stockNonneg st) : stockNonneg (voucherStockStep im inp st).1 := by
  unfold voucherStockStep
  split
  · exact stockNonneg_applyAdj st _ _ _ hn
  · exact hn

theorem stockNonneg_voucherApplyCore (im : Bool) (fp : FailPoint) (inp : VoucherInput)
    (l : Ledger) (st : Stock) (hn : stockNonneg st) :
    stockNonneg (voucherApplyCore im fp inp l st).outStock := by
  have hstep := stockNonneg_voucherStockStep im inp st hn
  unfold voucherApplyCore
  cases hss : voucherStockStep im inp st with
  | mk st1 eo =>
    rw [hss] at hstep
    cases eo with
    | some e => exact hstep
    | none =>
      dsimp only
      split <;> exact hstep

theorem stockNonneg_voucherCreate (u : Bool) (fp : FailPoint) (im : Bool)
    (inp : VoucherInput) (l : Ledger) (st : Stock) (hn : stockNonneg st) :
    stockNonneg (voucherCreate u fp im inp l st).outStock := by
  have hcore := stockNonneg_voucherApplyCore im fp inp l st hn
  unfold voucherCreate
  by_cases hval : isSettlementType inp.paymentType = false ∧ inp.items = []
  · rw [if_pos hval]
    exact hn
  · rw [if_neg hval]
    cases hcc : voucherApplyCore im fp inp l st with
    | ok a b c =>
      rw [hcc] at hcore
      exact hcore
    | fail a b e =>
      rw [hcc] at hcore
      dsimp only
      split
      · exact hn
      · exact hcore

theorem stockNonneg_reverse (v : Voucher) (l : Ledger) (st : Stock) (rs ms : Bool)
    (hn : stockNonneg st) :
    stockNonneg (reverseVoucherEffects v l st rs ms).stock := by
  have happ := stockNonneg_applyAdj st (getVoucherStockAdjustment v) v.voucherType true hn
  unfold reverseVoucherEffects
  dsimp only
  by_cases hsr : (rs && !v.stockRestored &&
      hasNonZeroStockAdjustment (getVoucherStockAdjustment v)) = true
  · rw [if_pos hsr]
    cases hres : applyStockAdjustmentForVoucher st (getVoucherStockAdjustment v)
        v.voucherType true with
    | mk s1 eo =>
      rw [hres] at happ
      cases eo with
      | some e => exact happ
      | none =>
        dsimp only
        repeat' first
        | exact happ
        | split
  · rw [if_neg hsr]
    dsimp only
    repeat' first
    | exact hn
    | split

theorem stockNonneg_voucherEdit (u : Bool) (fp : FailPoint) (im : Bool)
    (nowMs wh : ℚ) (inp : VoucherInput) (v : Voucher) (l : Ledger) (st : Stock)
    (hn : stockNonneg st) :
    stockNonneg (voucherEdit u fp im nowMs wh inp v l st).stock := by
  have hrev := stockNonneg_reverse v l st true false hn
  have hcore := stockNonneg_voucherApplyCore im fp inp
    (reverseVoucherEffects v l st true false).ledger
    (reverseVoucherEffects v l st true false).stock hrev
  unfold voucherEdit
  split
  · exact hn
  split
  · exact hn
  dsimp only
  cases herr : (reverseVoucherEffects v l st true false).err with
  | some e =>
    dsimp only
    split
    · exact hn
    · exact hrev
  | none =>
    dsimp only
    split
    · split
      · exact hn
      · exact hrev
    · cases hcc : voucherApplyCore im fp inp
          (reverseVoucherEffects v l st true false).ledger
          (reverseVoucherEffects v l st true false).stock with
      | ok a b c =>
        rw [hcc] at hcore
        exact hcore
      | fail a b e =>
        rw [hcc] at hcore
        dsimp only
        split
        · exact hn
        · exact hcore

theorem stockNonneg_voucherCancel (u : Bool) (nowMs wh : ℚ) (v : Voucher)
    (lo : Option Ledger) (st : Stock) (hn : stockNonneg st) :
    stockNonneg (voucherCancel u nowMs wh v lo st).stock := by
  unfold voucherCancel
  split
  · exact hn
  dsimp only
  cases lo with
  | none =>
    cases hcr : canReverseRecord nowMs v.createdAtMs wh <;> exact hn
  | some ledger =>
    cases hcr : canReverseRecord nowMs v.createdAtMs wh with
    | false => exact hn
    | true =>
      have hrev := stockNonneg_reverse v ledger st true true hn
      dsimp only
      cases herr : (reverseVoucherEffects v ledger st true true).err with
      | some e =>
        dsimp only
        split
        · exact hn
        · exact hrev
      | none => exact hrev

theorem stockNonneg_voucherDelete (u : Bool) (nowMs wh : ℚ) (v : Voucher)
    (lo : Option Ledger) (st : Stock) (hn : stockNonneg st) :
    stockNonneg (voucherDelete u nowMs wh v lo st).stock := by
  unfold voucherDelete
  dsimp only
  cases lo with
  | none => exact hn
  | some ledger =>
    dsimp only
    split
    · have hrev := stockNonneg_reverse v ledger st true false hn
      cases herr : (reverseVoucherEffects v ledger st true false).err with
      | some e =>
        dsimp only
        split
        · exact hn
        · exact hrev
      | none => exact hrev
    split
    · have happ := stockNonneg_applyAdj st (getVoucherStockAdjustment v)
        v.voucherType true hn
      split
      · cases hres : applyStockAdjustmentForVoucher st (getVoucherStockAdjustment v)
            v.voucherType true with
        | mk s1 eo =>
          rw [hres] at happ
          cases eo with
          | some e =>
            dsimp only
            split
            · exact hn
            · exact happ
          | none => exact happ
      · exact hn
    · exact hn

section
attribute [local irreducible] compensateSettlementStock

set_option maxHeartbeats 1000000 in
theorem stockNonneg_settlementCreate (fp : FailPoint) (inp : SettlementInput)
    (l : Ledger) (st : Stock) (hn : stockNonneg st) :
    stockNonneg (settlementCreate fp inp l st).stock := by
  unfold settlementCreate
  dsimp only
  by_cases hact : inp.direction = Direction.payment ∧ inp.isMoneyConversion = false
  · rw [if_pos hact]
    dsimp only
    cases hres : deductFromStock st (if inp.metalType = Metal.gold then inp.fineGiven else 0)
        (if inp.metalType = Metal.silver then inp.fineGiven else 0) with
    | error e =>
      dsimp only
      repeat' split
      all_goals exact hn
    | ok st1 =>
      have h1 := stockNonneg_deduct _ _ _ _ hres
      have hc : ∀ g sv : ℚ, stockNonneg (compensateSettlementStock StockAction.deduct st1 g sv) :=
        fun g sv => stockNonneg_compensate StockAction.deduct st1 g sv h1
      dsimp only
      repeat' split
      all_goals first | exact h1 | exact hc _ _ | exact hn
  · rw [if_neg hact]
    dsimp only
    cases hres : addBackToStock st (if inp.metalType = Metal.gold then inp.fineGiven else 0)
        (if inp.metalType = Metal.silver then inp.fineGiven else 0) with
    | error e =>
      dsimp only
      repeat' split
      all_goals exact hn
    | ok st1 =>
      have h1 := stockNonneg_addBack _ _ _ _ hn hres
      have hc : ∀ g sv : ℚ, stockNonneg (compensateSettlementStock StockAction.add st1 g sv) :=
        fun g sv => stockNonneg_compensate StockAction.add st1 g sv h1
      dsimp only
      repeat' split
      all_goals first | exact h1 | exact hc _ _ | exact hn

end

theorem stockNonneg_settlementDelete (nowMs wh : ℚ) (s : Settlement)
    (lo : Option Ledger) (st : Stock) (hn : stockNonneg st) :
    stockNonneg (settlementDelete nowMs wh s lo st).stock := by
  unfold settlementDelete
  dsimp only
  split
  · exact hn
  by_cases hdir : s.direction = Direction.payment
  · rw [if_pos hdir]
    cases hres : addBackToStock st (if s.metalType = Metal.gold then s.fineGiven else 0)
        (if s.metalType = Metal.silver then s.fineGiven else 0) with
    | error e => exact hn
    | ok st1 => exact stockNonneg_addBack _ _ _ _ hn hres
  · rw [if_neg hdir]
    cases hres : deductFromStock st (if s.metalType = Metal.gold then s.fineGiven else 0)
        (if s.metalType = Metal.silver then s.fineGiven else 0) with
    | error e => exact hn
    | ok st1 => exact stockNonneg_deduct _ _ _ _ hres

theorem stockNonneg_karigarCreate (inp : KarigarInput) (st : Stock)
    (hn : stockNonneg st) : stockNonneg (karigarCreate inp st).stock := by
  unfold karigarCreate
  dsimp only
  split
  · exact hn
  cases htype : inp.type with
  | given =>
    cases hres : deductFromStock st (if inp.metalType = Metal.gold then inp.fineWeight else 0)
        (if inp.metalType = Metal.silver then inp.fineWeight else 0) with
    | error e => exact hn
    | ok st1 => exact stockNonneg_deduct _ _ _ _ hres
  | received =>
    cases hres : addBackToStock st (if inp.metalType = Metal.gold then inp.fineWeight else 0)
        (if inp.metalType = Metal.silver then inp.fineWeight else 0) with
    | error e => exact hn
    | ok st1 => exact stockNonneg_addBack _ _ _ _ hn hres

theorem stockNonneg_karigarDelete (nowMs wh : ℚ) (k : KarigarTx) (st : Stock)
    (hn : stockNonneg st) : stockNonneg (karigarDelete nowMs wh k st).stock := by
  unfold karigarDelete
  dsimp only
  split
  · exact hn
  split
  · exact hn
  cases htype : k.type with
  | given =>
    cases hres : addBackToStock st (if k.metalType = Metal.gold then k.fineWeight else 0)
        (if k.metalType = Metal.silver then k.fineWeight else 0) with
    | error e => exact hn
    | ok st1 => exact stockNonneg_addBack _ _ _ _ hn hres
  | received =>
    cases hres : deductFromStock st (if k.metalType = Metal.gold then k.fineWeight else 0)
        (if k.metalType = Metal.silver then k.fineWeight else 0) with
    | error e => exact hn
    | ok st1 => exact stockNonneg_deduct _ _ _ _ hres

/-! The machine-level invariants: every reachable state keeps the unified
amount equal to cash plus credit on the ledger and on every stored
snapshot, and keeps both stock counters non-negative. -/

theorem sysBalInv_initState (lt : LedgerType) (ob : OpeningBalance) :
    sysBalInv (initState lt ob) := by
  refine ⟨balOk_createLedger lt ob, ?_⟩
  intro v hv
  cases hv

theorem sysBalInv_applyOp (op : Op) (s : SysState) (h : sysBalInv s) :
    sysBalInv (applyOp op s) := by
  obtain ⟨hb, hv⟩ := h
  cases op with
  | voucherCreateOp u fp im inp =>
    dsimp only [applyOp]
    have hl := balOk_voucherCreate u fp im inp s.ledger s.stock hb
    cases hcc : voucherCreate u fp im inp s.ledger s.stock with
    | ok l st v =>
      rw [hcc] at hl
      refine ⟨hl, ?_⟩
      intro w hw
      rcases List.mem_append.mp hw with hmem | hmem
      · exact hv w hmem
      · have hwv : w = v := by simpa using hmem
        rw [hwv]
        exact snapOk_voucherCreate u fp im inp s.ledger s.stock l st v hcc hb
    | fail l st e =>
      rw [hcc] at hl
      exact ⟨hl, hv⟩
  | voucherEditOp u fp im nowMs wh idx inp =>
    dsimp only [applyOp]
    cases hlook : s.vouchers[idx]? with
    | none => exact ⟨hb, hv⟩
    | some v =>
      have hsv := hv v (mem_of_getElem?_eq _ _ _ hlook)
      refine ⟨balOk_voucherEdit u fp im nowMs wh inp v s.ledger s.stock hb hsv, ?_⟩
      intro w hw
      rcases List.mem_or_eq_of_mem_set hw with hmem | hwv
      · exact hv w hmem
      · subst hwv
        exact snapOk_voucherEdit u fp im nowMs wh inp v s.ledger s.stock hb hsv
  | voucherCancelOp u nowMs wh idx =>
    dsimp only [applyOp]
    cases hlook : s.vouchers[idx]? with
    | none => exact ⟨hb, hv⟩
    | some v =>
      have hsv := hv v (mem_of_getElem?_eq _ _ _ hlook)
      refine ⟨balOk_voucherCancel u nowMs wh v s.ledger s.stock hb hsv, ?_⟩
      intro w hw
      rcases List.mem_or_eq_of_mem_set hw with hmem | hwv
      · exact hv w hmem
      · subst hwv
        exact snapOk_voucherCancel u nowMs wh v (some s.ledger) s.stock hsv
  | voucherDeleteOp u nowMs wh idx =>
    dsimp only [applyOp]
    cases hlook : s.vouchers[idx]? with
    | none => exact ⟨hb, hv⟩
    | some v =>
      dsimp only
      have hsv := hv v (mem_of_getElem?_eq _ _ _ hlook)
      refine ⟨balOk_voucherDelete u nowMs wh v s.ledger s.stock hb hsv, ?_⟩
      cases hopt : (voucherDelete u nowMs wh v (some s.ledger) s.stock).voucherOpt with
      | none =>
        intro w hw
        exact hv w (List.mem_of_mem_eraseIdx hw)
      | some v1 =>
        intro w hw
        rcases List.mem_or_eq_of_mem_set hw with hmem | hwv
        · exact hv w hmem
        · have he := voucherDelete_voucherOpt u nowMs wh v (some s.ledger) s.stock v1 hopt
          rw [hwv, he]
          exact hsv
  | settlementCreateOp fp inp =>
    dsimp only [applyOp]
    exact ⟨balOk_settlementCreate fp inp s.ledger s.stock hb, hv⟩
  | settlementDeleteOp nowMs wh idx =>
    dsimp only [applyOp]
    cases hlook : s.settlements[idx]? with
    | none => exact ⟨hb, hv⟩
    | some srec =>
      exact ⟨balOk_settlementDelete nowMs wh srec s.ledger s.stock hb, hv⟩
  | karigarCreateOp inp =>
    exact ⟨hb, hv⟩
  | karigarDeleteOp nowMs wh idx =>
    dsimp only [applyOp]
    cases hlook : s.karigars[idx]? with
    | none => exact ⟨hb, hv⟩
    | some k => exact ⟨hb, hv⟩
  | stockAddOp g sv cashAmount =>
    dsimp only [applyOp]
    cases hres : addStock s.stock g sv cashAmount with
    | ok st1 => exact ⟨hb, hv⟩
    | error e => exact ⟨hb, hv⟩
  | stockUndoOp =>
    dsimp only [applyOp]
    cases hsi : s.stockInputs with
    | nil => exact ⟨hb, hv⟩
    | cons lastInput rest =>
      dsimp only
      cases hres : undoStockInput s.stock lastInput with
      | ok st1 => exact ⟨hb, hv⟩
      | error e => exact ⟨hb, hv⟩
  | recalcOp =>
    dsimp only [applyOp]
    refine ⟨balOk_recalculateBalance _ _ _, ?_⟩
    intro w hw
    obtain ⟨v0, hv0, rfl⟩ := List.mem_map.mp hw
    have hs0 := hv v0 hv0
    by_cases hst : v0.status = VoucherStatus.active
    · rw [if_pos hst]
      exact snapOk_of_prev_eq v0 _ (fixVoucherTotal_prev v0) hs0
    · rw [if_neg hst]
      exact hs0
  | updateOpeningOp ob =>
    exact ⟨balOk_updateLedgerOpening ob _ s.ledger hb, hv⟩
  | purgeOp =>
    refine ⟨balOk_resetBalances, ?_⟩
    intro w hw
    cases hw

theorem sysBalInv_reachable (s : SysState) (h : Reachable s) : sysBalInv s := by
  induction h with
  | init lt ob => exact sysBalInv_initState lt ob
  | step op hr ih => exact sysBalInv_applyOp op _ ih

theorem stockNonneg_initState (lt : LedgerType) (ob : OpeningBalance) :
    stockNonneg (initState lt ob).stock :=
  ⟨le_refl 0, le_refl 0⟩

theorem stockNonneg_applyOp (op : Op) (s : SysState) (h : stockNonneg s.stock) :
    stockNonneg (applyOp op s).stock := by
  cases op with
  | voucherCreateOp u fp im inp =>
    dsimp only [applyOp]
    have hl := stockNonneg_voucherCreate u fp im inp s.ledger s.stock h
    cases hcc : voucherCreate u fp im inp s.ledger s.stock with
    | ok l st v => rw [hcc] at hl; exact hl
    | fail l st e => rw [hcc] at hl; exact hl
  | voucherEditOp u fp im nowMs wh idx inp =>
    dsimp only [applyOp]
    cases hlook : s.vouchers[idx]? with
    | none => exact h
    | some v => exact stockNonneg_voucherEdit u fp im nowMs wh inp v s.ledger s.stock h
  | voucherCancelOp u nowMs wh idx =>
    dsimp only [applyOp]
    cases hlook : s.vouchers[idx]? with
    | none => exact h
    | some v => exact stockNonneg_voucherCancel u nowMs wh v (some s.ledger) s.stock h
  | voucherDeleteOp u nowMs wh idx =>
    dsimp only [applyOp]
    cases hlook : s.vouchers[idx]? with
    | none => exact h
    | some v => exact stockNonneg_voucherDelete u nowMs wh v (some s.ledger) s.stock h
  | settlementCreateOp fp inp =>
    exact stockNonneg_settlementCreate fp inp s.ledger s.stock h
  | settlementDeleteOp nowMs wh idx =>
    dsimp only [applyOp]
    cases hlook : s.settlements[idx]? with
    | none => exact h
    | some srec => exact stockNonneg_settlementDelete nowMs wh srec (some s.ledger) s.stock h
  | karigarCreateOp inp =>
    exact stockNonneg_karigarCreate inp s.stock h
  | karigarDeleteOp nowMs wh idx =>
    dsimp only [applyOp]
    cases hlook : s.karigars[idx]? with
    | none => exact h
    | some k => exact stockNonneg_karigarDelete nowMs wh k s.stock h
  | stockAddOp g sv cashAmount =>
    dsimp only [applyOp]
    cases hres : addStock s.stock g sv cashAmount with
    | ok st1 => exact stockNonneg_addStock s.stock st1 g sv cashAmount h hres
    | error e => exact h
  | stockUndoOp =>
    dsimp only [applyOp]
    cases hsi : s.stockInputs with
    | nil => exact h
    | cons lastInput rest =>
      dsimp only
      cases hres : undoStockInput s.stock lastInput with
      | ok st1 => exact stockNonneg_undo s.stock st1 lastInput hres
      | error e => exact h
  | recalcOp => exact h
  | updateOpeningOp ob => exact h
  | purgeOp => exact h

theorem stockNonneg_reachable (s : SysState) (h : Reachable s) :
    stockNonneg s.stock := by
  induction h with
  | init lt ob => exact stockNonneg_initState lt ob
  | step op hr ih => exact stockNonneg_applyOp op _ ih

/-- C1: for every ledger reachable through any sequence of the modelled
requests (voucher create/edit/cancel/delete, settlement create/delete,
karigar transactions, stock add/undo, balance recalculation, ledger
create/update/purge), `balances.amount` equals
`balances.cashBalance + balances.creditBalance` exactly. -/
theorem C1_amount_invariant (s : SysState) (h : Reachable s) :
    s.ledger.balances.amount =
      s.ledger.balances.cashBalance + s.ledger.balances.creditBalance :=
  (sysBalInv_reachable s h).1

theorem C1_amount_invariant_witness :
    Reachable (applyOp (Op.settlementCreateOp FailPoint.noFail samplePaymentInput)
        (initState LedgerType.regular
          { amount := 0, goldFineWeight := 0, silverFineWeight := 0 })) ∧
      (applyOp (Op.settlementCreateOp FailPoint.noFail samplePaymentInput)
          (initState LedgerType.regular
            { amount := 0, goldFineWeight := 0, silverFineWeight := 0
              })).ledger.balances.amount =
        (applyOp (Op.settlementCreateOp FailPoint.noFail samplePaymentInput)
            (initState LedgerType.regular
              { amount := 0, goldFineWeight := 0, silverFineWeight := 0
                })).ledger.balances.cashBalance +
          (applyOp (Op.settlementCreateOp FailPoint.noFail samplePaymentInput)
              (initState LedgerType.regular
                { amount := 0, goldFineWeight := 0, silverFineWeight := 0
                  })).ledger.balances.creditBalance :=
  ⟨Reachable.step _ (Reachable.init _ _),
    C1_amount_invariant _ (Reachable.step _ (Reachable.init _ _))⟩

/-- C2: starting from a freshly onboarded tenant, every reachable state
keeps both stock counters non-negative, for any sequence of the modelled
stock-mutating requests; and for non-negative requested magnitudes,
`deductFromStock` decrements both counters exactly when both results stay
non-negative, and otherwise fails with `insufficientStock`, leaving the
stored stock unchanged. -/
theorem C2_stock_invariant :
    (∀ s : SysState, Reachable s → 0 ≤ s.stock.gold ∧ 0 ≤ s.stock.silver) ∧
      ∀ (st : Stock) (g sv : ℚ), 0 ≤ g → 0 ≤ sv →
        (0 ≤ st.gold - g ∧ 0 ≤ st.silver - sv →
          deductFromStock st g sv =
            .ok { st with gold := st.gold - g, silver := st.silver - sv }) ∧
        (¬(0 ≤ st.gold - g ∧ 0 ≤ st.silver - sv) →
          deductFromStock st g sv = .error .insufficientStock) := by
  constructor
  · intro s h
    exact stockNonneg_reachable s h
  · intro st g sv hg hsv
    have h1 : ¬(g < 0 ∨ sv < 0) := by
      push_neg
      exact ⟨hg, hsv⟩
    constructor
    · intro hok
      have h2 : g ≤ st.gold ∧ sv ≤ st.silver :=
        ⟨by linarith [hok.1], by linarith [hok.2]⟩
      unfold deductFromStock
      rw [if_neg h1, if_pos h2]
    · intro hbad
      have h2 : ¬(g ≤ st.gold ∧ sv ≤ st.silver) := by
        intro hc
        exact hbad ⟨by linarith [hc.1], by linarith [hc.2]⟩
      unfold deductFromStock
      rw [if_neg h1, if_neg h2]

theorem C2_stock_invariant_witness :
    (0 ≤ (applyOp (Op.stockAddOp 5 5 0) (initState LedgerType.regular
          { amount := 0, goldFineWeight := 0, silverFineWeight := 0 })).stock.gold ∧
        0 ≤ (applyOp (Op.stockAddOp 5 5 0) (initState LedgerType.regular
          { amount := 0, goldFineWeight := 0, silverFineWeight := 0 })).stock.silver) ∧
      deductFromStock { gold := 5, silver := 5, cashInHand := 0 } 2 1 =
        .ok { gold := (5 : ℚ) - 2, silver := (5 : ℚ) - 1, cashInHand := 0 } ∧
      deductFromStock { gold := 1, silver := 0, cashInHand := 0 } 2 0 =
        .error .insufficientStock :=
  ⟨C2_stock_invariant.1 _ (Reachable.step _ (Reachable.init _ _)),
    (C2_stock_invariant.2 { gold := 5, silver := 5, cashInHand := 0 } 2 1
        (by norm_num) (by norm_num)).1 (by norm_num),
    (C2_stock_invariant.2 { gold := 1, silver := 0, cashInHand := 0 } 2 0
        (by norm_num) (by norm_num)).2 (by norm_num)⟩

end GoldSilver
